import Mathlib

/-!
# JSBHeaderVisitor: extraction of the binding model from a parsed header

A shallow embedding of `Source/Tools/JSBind/JSBHeaderVisitor.h`.

* The C++ front end's symbols and types (`Type`, `FullySpecifiedType`,
  `Function`, `Argument`, `Declaration`, `Class`) are inductive values; a
  `Name*` is represented by the string `getNameString` renders it to.
* The binding model (`JSBType`, `JSBFunctionType`, `JSBFunction`, `JSBClass`,
  `JSBModule`, `JSBindings`) is plain data.  A `JSBClass*` / `JSBEnum*` held by
  the model is represented by the name under which the registry knows it.
* The visitor's mutable surroundings (registry, module, log) are threaded as an
  explicit state `JSBHeaderVisitor`.
-/

set_option autoImplicit false

namespace JSBind

/-! ## The parsed C++ side -/

/-- The integer kinds of the front end (`IntegerType::Kind`). -/
inductive IntegerKind
  | Char | Char16 | Char32 | WideChar | Bool | Short | Int | Long | LongLong
  deriving DecidableEq, Repr

/-- The floating-point kinds of the front end (`FloatType::Kind`). -/
inductive FloatKind
  | Float | Double | LongDouble
  deriving DecidableEq, Repr

/-- Member visibility of a symbol. -/
inductive Visibility
  | Public | Protected | Private
  deriving DecidableEq, Repr

mutual

/-- The front end's `Type`: one constructor per type category the visitor can
meet.  Signedness is not part of a `Type`; it lives on `FullySpecifiedType`. -/
inductive CppType
  | undefined
  | void
  | integer (kind : IntegerKind)
  | float (kind : FloatKind)
  | pointer (elementType : FullySpecifiedType)
  | reference (elementType : FullySpecifiedType)
  | array (elementType : FullySpecifiedType)
  | named (name : String)
  | enumType (name : String)
  | function (f : Function)

/-- A type together with its specifier flags. -/
inductive FullySpecifiedType
  | mk (type : CppType) (isSigned : Bool) (isUnsigned : Bool)

/-- A function argument: name, type and optional initializer source text. -/
inductive Argument
  | mk (name : String) (type : FullySpecifiedType) (initializer : Option String)

/-- A declaration symbol: name and declared type. -/
inductive Declaration
  | mk (name : String) (type : FullySpecifiedType)

/-- A function symbol (also a type category: the type of a function-typed
declaration).  `returnType = none` is a function without return type
(`hasReturnType()` false); `arguments` is what `argumentCount()` /
`argumentAt(i)` enumerate. -/
inductive Function
  | mk (name : String) (isVariadic : Bool) (isPureVirtual : Bool)
      (returnType : Option FullySpecifiedType) (arguments : List Symbol)

/-- A symbol as it appears in a member list or an argument list. -/
inductive Symbol
  | argument (visibility : Visibility) (arg : Argument)
  | declaration (visibility : Visibility) (decl : Declaration)
  | function (visibility : Visibility) (f : Function)
  | other (visibility : Visibility)

end

namespace FullySpecifiedType

/-- Accessor `FullySpecifiedType::type()`. -/
def type : FullySpecifiedType → CppType
  | mk t _ _ => t

/-- Accessor `FullySpecifiedType::isSigned()`. -/
def isSigned : FullySpecifiedType → Bool
  | mk _ s _ => s

/-- Accessor `FullySpecifiedType::isUnsigned()`. -/
def isUnsigned : FullySpecifiedType → Bool
  | mk _ _ u => u

end FullySpecifiedType

namespace CppType

def isPointerType : CppType → Bool
  | pointer _ => true
  | _ => false

def isReferenceType : CppType → Bool
  | reference _ => true
  | _ => false

def isUndefinedType : CppType → Bool
  | undefined => true
  | _ => false

def isVoidType : CppType → Bool
  | void => true
  | _ => false

def isIntegerType : CppType → Bool
  | integer _ => true
  | _ => false

def isFloatType : CppType → Bool
  | float _ => true
  | _ => false

def isNamedType : CppType → Bool
  | named _ => true
  | _ => false

def isEnumType : CppType → Bool
  | enumType _ => true
  | _ => false

/-- The cast `asFunctionType()`: the function behind a function type, else null. -/
def asFunctionType : CppType → Option Function
  | function f => some f
  | _ => none

end CppType

namespace Argument

def name : Argument → String
  | mk n _ _ => n

def type : Argument → FullySpecifiedType
  | mk _ t _ => t

/-- The initializer's characters, present exactly when `hasInitializer()`. -/
def initializer : Argument → Option String
  | mk _ _ i => i

def hasInitializer (a : Argument) : Bool := a.initializer.isSome

end Argument

namespace Declaration

def name : Declaration → String
  | mk n _ => n

def type : Declaration → FullySpecifiedType
  | mk _ t => t

end Declaration

namespace Function

def name : Function → String
  | mk n _ _ _ _ => n

def isVariadic : Function → Bool
  | mk _ v _ _ _ => v

def isPureVirtual : Function → Bool
  | mk _ _ p _ _ => p

def returnType : Function → Option FullySpecifiedType
  | mk _ _ _ r _ => r

def arguments : Function → List Symbol
  | mk _ _ _ _ a => a

def hasReturnType (f : Function) : Bool := f.returnType.isSome

def argumentCount (f : Function) : Nat := f.arguments.length

/-- Modelled from the spec: `Function::hasArguments` belongs to the C++ front
end, which is not part of the visitor's source; a function has arguments
exactly when its argument list is not empty. -/
def hasArguments (f : Function) : Bool := !f.arguments.isEmpty

end Function

namespace Symbol

def visibility : Symbol → Visibility
  | argument v _ => v
  | declaration v _ => v
  | function v _ => v
  | other v => v

def isPublic (s : Symbol) : Bool := s.visibility == Visibility.Public

def isArgument : Symbol → Bool
  | argument _ _ => true
  | _ => false

def asArgument : Symbol → Option Argument
  | argument _ a => some a
  | _ => none

def asDeclaration : Symbol → Option Declaration
  | declaration _ d => some d
  | _ => none

def asFunction : Symbol → Option Function
  | function _ f => some f
  | _ => none

end Symbol

/-- A base-class entry of a class symbol. -/
structure BaseClass where
  name : String
  deriving DecidableEq, Repr

/-- A class symbol: name, declared bases and members in declaration order. -/
structure Class where
  name : String
  baseClasses : List BaseClass
  members : List Symbol

/-- Rendering of a name node (`JSBNameVisitor`); names are kept already rendered. -/
def getNameString (name : String) : String := name

/-- Modelled from the spec: `String::StartsWith` of the engine's container
library is not in the visitor's source; the string begins with the literal. -/
def StartsWith (s literal : String) : Bool := literal.toList.isPrefixOf s.toList

/-! ## The binding model -/

/-- Modelled from the spec: `JSBPrimitiveType::Kind` is declared outside the
visitor's source; `Primitive` kinds are the front end's integer kinds, taken
over as they are, and `Float`. -/
inductive JSBPrimitiveKind
  | Char | Char16 | Char32 | WideChar | Bool | Short | Int | Long | LongLong | Float
  deriving DecidableEq, Repr

/-- The primitive kind with the same value as an `IntegerType::Kind`. -/
def JSBPrimitiveKind.ofIntegerKind : IntegerKind → JSBPrimitiveKind
  | .Char => .Char
  | .Char16 => .Char16
  | .Char32 => .Char32
  | .WideChar => .WideChar
  | .Bool => .Bool
  | .Short => .Short
  | .Int => .Int
  | .Long => .Long
  | .LongLong => .LongLong

/-- The model's `Primitive{kind, unsigned}`. -/
structure JSBPrimitiveType where
  kind : JSBPrimitiveKind
  isUnsigned : Bool
  deriving DecidableEq, Repr

/-- Modelled from the spec: the declaration of `JSBPrimitiveType` is outside the
visitor's source.  The one-argument construction `new JSBPrimitiveType(kind)`
receives no signedness, so the flag keeps its default, not unsigned. -/
def JSBPrimitiveType.ofKind (kind : JSBPrimitiveKind) : JSBPrimitiveType :=
  { kind := kind, isUnsigned := false }

/-- The closed set of binding types.  Class and enum references are by the
name under which the registry holds them. -/
inductive JSBType
  | primitive (p : JSBPrimitiveType)
  | string
  | stringHash
  | heapPtr
  | classType (className : String)
  | enumType (enumName : String)
  deriving DecidableEq, Repr

/-- The cast `asPrimitiveType()`. -/
def JSBType.asPrimitiveType : JSBType → Option JSBPrimitiveType
  | .primitive p => some p
  | _ => none

/-- A return or parameter slot of the model. -/
structure JSBFunctionType where
  type : JSBType
  isPointer : Bool
  isSharedPtr : Bool
  isReference : Bool
  name : String
  initializer : String
  deriving DecidableEq, Repr

/-- The construction `new JSBFunctionType(jtype)`: no qualifier, empty name and
initializer. -/
def JSBFunctionType.ofType (jtype : JSBType) : JSBFunctionType :=
  { type := jtype, isPointer := false, isSharedPtr := false, isReference := false,
    name := "", initializer := "" }

/-- A function of the model. `klass` names the owning class. -/
structure JSBFunction where
  klass : String
  name : String
  isConstructor : Bool
  isDestructor : Bool
  returnType : Option JSBFunctionType
  parameters : List JSBFunctionType
  deriving DecidableEq, Repr

/-- Modelled from the spec: `JSBFunction::AddParameter` is declared outside the
visitor's source; parameters are appended in declaration order. -/
def JSBFunction.AddParameter (f : JSBFunction) (ftype : JSBFunctionType) : JSBFunction :=
  { f with parameters := f.parameters ++ [ftype] }

/-- A registered enum. -/
structure JSBEnum where
  name : String
  deriving DecidableEq, Repr

/-- A registered class.  Bases are held by name; `header` and `module_` are the
names of the header and module the class was attached to, if any. -/
structure JSBClass where
  className : String
  header : Option String
  module_ : Option String
  baseClasses : List String
  functions : List JSBFunction
  isAbstract : Bool
  deriving DecidableEq, Repr

namespace JSBClass

def GetClassName (c : JSBClass) : String := c.className

/-- The construction `new JSBFunction(klass)`. -/
def newFunction (c : JSBClass) : JSBFunction :=
  { klass := c.className, name := "", isConstructor := false, isDestructor := false,
    returnType := none, parameters := [] }

def SetHeader (c : JSBClass) (header : String) : JSBClass := { c with header := some header }

def SetModule (c : JSBClass) (module : String) : JSBClass := { c with module_ := some module }

def setAbstract (c : JSBClass) (value : Bool) : JSBClass := { c with isAbstract := value }

/-- Modelled from the spec: `JSBClass::AddBaseClass` is declared outside the
visitor's source; the base is appended to the class's base list. -/
def AddBaseClass (c : JSBClass) (base : String) : JSBClass :=
  { c with baseClasses := c.baseClasses ++ [base] }

/-- Modelled from the spec: `JSBClass::AddFunction` is declared outside the
visitor's source; the function is appended to the class's function list. -/
def AddFunction (c : JSBClass) (f : JSBFunction) : JSBClass :=
  { c with functions := c.functions ++ [f] }

end JSBClass

/-- The registry of classes and enums declared for binding. -/
structure JSBindings where
  classes : List JSBClass
  enums : List JSBEnum
  deriving DecidableEq, Repr

namespace JSBindings

/-- Modelled from the spec: `JSBindings::GetClass` is declared outside the
visitor's source; lookup of a class by name, absent when not registered. -/
def GetClass (b : JSBindings) (name : String) : Option JSBClass :=
  b.classes.find? (fun c => c.className == name)

/-- Modelled from the spec: `JSBindings::GetEnum` is declared outside the
visitor's source; lookup of an enum by name, absent when not registered. -/
def GetEnum (b : JSBindings) (name : String) : Option JSBEnum :=
  b.enums.find? (fun e => e.name == name)

end JSBindings

/-! ## Type mapping -/

/-- `JSBHeaderVisitor::processTypeConversion`. -/
def processTypeConversion (bindings : JSBindings) (type : CppType) : Option JSBType :=
  let jtype : Option JSBType :=
    match type with
    | .integer kind => some (.primitive (JSBPrimitiveType.ofKind (.ofIntegerKind kind)))
    | _ => none
  match type with
  | .float _ => some (.primitive (JSBPrimitiveType.ofKind .Float))
  | .named name =>
    let classname := getNameString name
    if classname == "String" then some .string
    else if classname == "StringHash" then some .stringHash
    else if classname == "JS_HEAP_PTR" then some .heapPtr
    else
      match bindings.GetClass classname with
      | some jclass => some (.classType jclass.className)
      | none =>
        -- this might be an enum
        match bindings.GetEnum classname with
        | some jenum => some (.enumType jenum.name)
        | none => jtype
  | _ => jtype

/-- First unwrapping step of `processFunctionType`: one level of pointer. -/
def unwrapPointer (type : CppType) : Bool × CppType :=
  match type with
  | .pointer pfst => (true, pfst.type)
  | _ => (false, type)

/-- Second unwrapping step of `processFunctionType`: one level of reference. -/
def unwrapReference (type : CppType) : Bool × CppType :=
  match type with
  | .reference pfst => (true, pfst.type)
  | _ => (false, type)

/-- The mapping of the unwrapped core type inside `processFunctionType`: the
bare `unsigned` special case, else `processTypeConversion`. -/
def mapCoreType (bindings : JSBindings) (fst : FullySpecifiedType) (type : CppType) :
    Option JSBType :=
  let jtype : Option JSBType :=
    if fst.isUnsigned then
      if type.isUndefinedType then
        -- this happens when just using "unsigned" in code
        some (.primitive { kind := .Int, isUnsigned := true })
      else none
    else none
  match jtype with
  | some t => some t
  | none => processTypeConversion bindings type

/-- `JSBHeaderVisitor::processFunctionType`. -/
def processFunctionType (bindings : JSBindings) (fst : FullySpecifiedType) :
    Option JSBFunctionType :=
  let type := fst.type
  let isPointer := (unwrapPointer type).1
  let type := (unwrapPointer type).2
  let isReference := (unwrapReference type).1
  let type := (unwrapReference type).2
  match mapCoreType bindings fst type with
  | none => none
  | some jtype =>
    -- no pointers to prim atm
    if (isPointer || isReference) && jtype.asPrimitiveType.isSome then none
    else
      some { JSBFunctionType.ofType jtype with
        isPointer := isPointer, isSharedPtr := false, isReference := isReference }

/-- `JSBHeaderVisitor::processFunctionArgType`. -/
def processFunctionArgType (bindings : JSBindings) (arg : Argument) : Option JSBFunctionType :=
  match processFunctionType bindings arg.type with
  | none => none
  | some jtype => some { jtype with name := getNameString arg.name }

/-- `JSBHeaderVisitor::processFunctionReturnType`. -/
def processFunctionReturnType (bindings : JSBindings) (function : Function) :
    Option JSBFunctionType :=
  match function.returnType with
  | none => none
  | some returnType =>
    match processFunctionType bindings returnType with
    | none => none
    | some jtype => some jtype

/-- The argument loop of `processFunction`: every entry must be an argument
whose slot maps; the first failure rejects the whole function. -/
def processArguments (bindings : JSBindings) :
    List Symbol → JSBFunction → Option JSBFunction
  | [], jfunction => some jfunction
  | symbol :: rest, jfunction =>
    match symbol.asArgument with
    | some arg =>
      match processFunctionArgType bindings arg with
      | none => none
      | some ftype =>
        let ftype :=
          match arg.initializer with
          | some chars => { ftype with initializer := chars }
          | none => ftype
        processArguments bindings rest (jfunction.AddParameter ftype)
    | none => none

/-- The return-type step of `processFunction`. -/
def processReturn (bindings : JSBindings) (function : Function) (jfunction : JSBFunction) :
    Option JSBFunction :=
  match function.returnType with
  | some returnType =>
    if !returnType.type.isVoidType then
      match processFunctionReturnType bindings function with
      | none => none
      | some jtype => some { jfunction with returnType := some jtype }
    else some jfunction
  | none => some jfunction

/-- `JSBHeaderVisitor::processFunction`. -/
def processFunction (bindings : JSBindings) (klass : JSBClass) (function : Function) :
    Option JSBFunction :=
  let jfunction := klass.newFunction
  -- don't ... atm
  if function.isVariadic then none
  else
    let jfunction := { jfunction with name := getNameString function.name }
    -- don't support operators atm
    if StartsWith jfunction.name "operator " then none
    else
      let jfunction :=
        if jfunction.name == klass.GetClassName then { jfunction with isConstructor := true }
        else jfunction
      let jfunction :=
        if StartsWith jfunction.name "~" then { jfunction with isDestructor := true }
        else jfunction
      -- see if we support return type
      match processReturn bindings function jfunction with
      | none => none
      | some jfunction =>
        if function.hasArguments then processArguments bindings function.arguments jfunction
        else some jfunction

/-! ## The visitor -/

/-- The module being built: the classes added to it and its constant names. -/
structure JSBModule where
  name : String
  classes : List String
  constants : List String
  deriving DecidableEq, Repr

namespace JSBModule

/-- Modelled from the spec: `JSBModule::AddClass` is declared outside the
visitor's source; the class is appended to the module's class list. -/
def AddClass (m : JSBModule) (klass : String) : JSBModule :=
  { m with classes := m.classes ++ [klass] }

/-- Modelled from the spec: `JSBModule::RegisterConstant` is declared outside
the visitor's source; the name joins the module's set of constant names. -/
def RegisterConstant (m : JSBModule) (constant : String) : JSBModule :=
  if constant ∈ m.constants then m else { m with constants := m.constants ++ [constant] }

end JSBModule

/-- Update, in a class list, of the first entry registered under `name`: the
effect of a write through the `JSBClass*` that `GetClass(name)` returned. -/
def updateClassList (name : String) (f : JSBClass → JSBClass) : List JSBClass → List JSBClass
  | [] => []
  | c :: cs => if c.className == name then f c :: cs else c :: updateClassList name f cs

/-- A write through the `JSBClass*` registered under `name`. -/
def JSBindings.updateClass (b : JSBindings) (name : String) (f : JSBClass → JSBClass) :
    JSBindings :=
  { b with classes := updateClassList name f b.classes }

/-- The visitor's state: its header, the module and registry it writes to, and
the log that receives `LOGINFOF` messages. -/
structure JSBHeaderVisitor where
  header_ : String
  module_ : JSBModule
  bindings_ : JSBindings
  log : List String
  deriving DecidableEq, Repr

namespace JSBHeaderVisitor

/-- A write through the class pointer `jclass` registered under `name`. -/
def onClass (v : JSBHeaderVisitor) (name : String) (f : JSBClass → JSBClass) :
    JSBHeaderVisitor :=
  { v with bindings_ := v.bindings_.updateClass name f }

/-- One round of the base-class loop of `visit(Class*)`. -/
def visitBaseClass (name : String) (jclass : JSBClass) (v : JSBHeaderVisitor)
    (baseclass : BaseClass) : JSBHeaderVisitor :=
  let baseclassname := getNameString baseclass.name
  match v.bindings_.GetClass baseclassname with
  | none =>
    { v with log := v.log ++
        ["Warning: " ++ name ++ " baseclass " ++ baseclassname ++ " not in bindings"] }
  | some base => v.onClass jclass.className (fun c => c.AddBaseClass base.className)

/-- The function a member stands for: an inline definition, or else a
declaration of function type. -/
def memberFunction (symbol : Symbol) : Option Function :=
  let decl := symbol.asDeclaration
  -- if the function describes the body in the header
  let function := symbol.asFunction
  -- otherwise it could be a decl
  match function, decl with
  | none, some decl => decl.type.type.asFunctionType
  | function, _ => function

/-- One round of the member loop of `visit(Class*)`. -/
def visitMember (jclass : JSBClass) (v : JSBHeaderVisitor) (symbol : Symbol) :
    JSBHeaderVisitor :=
  match memberFunction symbol with
  | some function =>
    let v := if function.isPureVirtual then
        v.onClass jclass.className (fun c => c.setAbstract true)
      else v
    -- only want public functions
    if !symbol.isPublic then v
    else
      match processFunction v.bindings_ jclass function with
      | some jfunction => v.onClass jclass.className (fun c => c.AddFunction jfunction)
      | none => v
  | none => v

/-- `JSBHeaderVisitor::visit(Class*)`: the result is the descend flag and the
state after the visit. -/
def visitClass (v : JSBHeaderVisitor) (klass : Class) : Bool × JSBHeaderVisitor :=
  let name := getNameString klass.name
  match v.bindings_.GetClass name with
  | none => (false, v)
  | some jclass =>
    let v := v.onClass jclass.className (fun c => c.SetHeader v.header_)
    let v := v.onClass jclass.className (fun c => c.SetModule v.module_.name)
    let v := { v with module_ := v.module_.AddClass jclass.className }
    let v := klass.baseClasses.foldl (visitBaseClass name jclass) v
    let v := klass.members.foldl (visitMember jclass) v
    -- return false so we don't traverse the class members
    (false, v)

/-- `JSBHeaderVisitor::visit(Declaration*)`. -/
def visitDeclaration (v : JSBHeaderVisitor) (decl : Declaration) : Bool × JSBHeaderVisitor :=
  let type := decl.type.type
  if type.isPointerType || type.isReferenceType then (true, v)
  else if type.isEnumType then (true, v)
  else if !type.isFloatType && !type.isIntegerType then (true, v)
  else (true, { v with module_ := v.module_.RegisterConstant (getNameString decl.name) })

end JSBHeaderVisitor

/-! ## Derived notions used to state the properties -/

/-- The parameter the argument loop builds for one argument: the mapped slot,
named, with the initializer's text when there is one. -/
def argumentParameter (bindings : JSBindings) (arg : Argument) : Option JSBFunctionType :=
  match processFunctionArgType bindings arg with
  | none => none
  | some ftype =>
    some (match arg.initializer with
      | some chars => { ftype with initializer := chars }
      | none => ftype)

/-- The parameters of a whole argument list, when every entry is an argument
whose slot maps. -/
def argumentParameters (bindings : JSBindings) : List Symbol → Option (List JSBFunctionType)
  | [] => some []
  | symbol :: rest =>
    match symbol.asArgument with
    | none => none
    | some arg =>
      match argumentParameter bindings arg with
      | none => none
      | some p =>
        match argumentParameters bindings rest with
        | none => none
        | some ps => some (p :: ps)

/-- The return descriptor of a function: absent for no or void return type,
else the mapped return slot, when it maps. -/
def returnDescriptor (bindings : JSBindings) (function : Function) :
    Option (Option JSBFunctionType) :=
  match function.returnType with
  | none => some none
  | some returnType =>
    if returnType.type.isVoidType then some none
    else
      match processFunctionType bindings returnType with
      | none => none
      | some jtype => some (some jtype)

/-- The declared bases whose names resolve in the registry, in declaration order. -/
def resolvedBases (b : JSBindings) (bases : List BaseClass) : List String :=
  (bases.filter (fun bc => (b.GetClass (getNameString bc.name)).isSome)).map
    (fun bc => getNameString bc.name)

/-- The warning logged for a base of class `name` that does not resolve. -/
def baseWarning (name : String) (bc : BaseClass) : String :=
  "Warning: " ++ name ++ " baseclass " ++ getNameString bc.name ++ " not in bindings"

/-- One warning per declared base whose name does not resolve, in declaration order. -/
def baseDiagnostics (name : String) (b : JSBindings) (bases : List BaseClass) : List String :=
  (bases.filter (fun bc => (b.GetClass (getNameString bc.name)).isNone)).map (baseWarning name)

/-- What a member contributes to the function list: the model of a member that
is a function, public and accepted; nothing otherwise. -/
def memberContribution (b : JSBindings) (jclass : JSBClass) (symbol : Symbol) :
    Option JSBFunction :=
  match JSBHeaderVisitor.memberFunction symbol with
  | some function => if symbol.isPublic then processFunction b jclass function else none
  | none => none

/-- The models of the members that are functions, public and accepted, in
member declaration order. -/
def acceptedFunctions (b : JSBindings) (jclass : JSBClass) (members : List Symbol) :
    List JSBFunction :=
  members.filterMap (memberContribution b jclass)

/-- Whether a member is a pure-virtual function. -/
def isPureVirtualMember (symbol : Symbol) : Bool :=
  match JSBHeaderVisitor.memberFunction symbol with
  | some function => function.isPureVirtual
  | none => false

/-- The core type `processFunctionType` hands to the type mapping: what is left
of the slot's type after the two unwrapping steps. -/
def unwrappedType (fst : FullySpecifiedType) : CppType :=
  (unwrapReference (unwrapPointer fst.type).2).2

/-- The role tags of a function of the model. -/
inductive Role
  | Normal | Constructor | Destructor
  deriving DecidableEq, Repr

/-- Whether a function carries a role: Constructor and Destructor are its two
flags, Normal is neither flag. -/
def JSBFunction.hasRole (jf : JSBFunction) : Role → Bool
  | .Constructor => jf.isConstructor
  | .Destructor => jf.isDestructor
  | .Normal => !jf.isConstructor && !jf.isDestructor

/-- The function a member is, read off the shape of the member and not through
the visitor's casts: an inline definition (a function symbol), or a declaration
whose type is a function type; no other member is a function. -/
def functionOfMember : Symbol → Option Function
  | .function _ f => some f
  | .declaration _ (.mk _ (.mk (.function f) _ _)) => some f
  | _ => none

/-- The function a public member is: as `functionOfMember`, for members of
public visibility only. -/
def publicFunctionOfMember : Symbol → Option Function
  | .function .Public f => some f
  | .declaration .Public (.mk _ (.mk (.function f) _ _)) => some f
  | _ => none

/-! ## Sample inputs -/

/-- The plain type `int`. -/
def intType : FullySpecifiedType := .mk (.integer .Int) false false

/-- The type `unsigned int`. -/
def unsignedIntType : FullySpecifiedType := .mk (.integer .Int) false true

/-- The plain type `float`. -/
def floatType : FullySpecifiedType := .mk (.float .Float) false false

/-- The type `int*`. -/
def intPointerType : FullySpecifiedType := .mk (.pointer intType) false false

/-- The type `Node*`. -/
def nodePointerType : FullySpecifiedType :=
  .mk (.pointer (.mk (.named "Node") false false)) false false

/-- A freshly registered class: nothing attached yet. -/
def registeredClass (name : String) : JSBClass :=
  { className := name, header := none, module_ := none, baseClasses := [], functions := [],
    isAbstract := false }

/-- A registry holding the classes `Vector3` and `Node` and no enum. -/
def sampleBindings : JSBindings :=
  { classes := [registeredClass "Vector3", registeredClass "Node"], enums := [] }

/-- The member function `int* GetRaw()`. -/
def getRawFunction : Function := .mk "GetRaw" false false (some intPointerType) []

/-- The member function `Node* GetParent()`. -/
def getParentFunction : Function := .mk "GetParent" false false (some nodePointerType) []

/-- A variadic function `void Print(...)`. -/
def printFunction : Function := .mk "Print" true false (some (.mk .void false false)) []

/-- The operator `bool operator ==()`. -/
def operatorFunction : Function :=
  .mk "operator ==" false false (some (.mk (.integer .Bool) false false)) []

/-- The twin of `printFunction` that is not variadic. -/
def printFunctionPlain : Function := .mk "Print" false false (some (.mk .void false false)) []

/-- The constructor `Vector3(float x, float y, float z)`. -/
def vector3Constructor : Function :=
  .mk "Vector3" false false none
    [.argument .Public (.mk "x" floatType none), .argument .Public (.mk "y" floatType none),
      .argument .Public (.mk "z" floatType none)]

/-- The parameter `(Float, name)`. -/
def floatParameter (name : String) : JSBFunctionType :=
  { JSBFunctionType.ofType (.primitive (JSBPrimitiveType.ofKind .Float)) with name := name }

/-- The function `void SetScale(float scale = 1.0f)`. -/
def setScaleFunction : Function :=
  .mk "SetScale" false false (some (.mk .void false false))
    [.argument .Public (.mk "scale" floatType (some "1.0f"))]

/-- The destructor `~Vector3()`. -/
def vector3Destructor : Function := .mk "~Vector3" false false none []

/-- The function `void Normalize()`. -/
def normalizeFunction : Function :=
  .mk "Normalize" false false (some (.mk .void false false)) []

/-- The model of `void Normalize()` in class `Vector3`. -/
def normalizeModel : JSBFunction :=
  { klass := "Vector3", name := "Normalize", isConstructor := false, isDestructor := false,
    returnType := none, parameters := [] }

/-- The class symbol `Vector3` whose members are all declarations: public
`void Normalize();`, protected `void Normalize();`, public `float x_`. -/
def declaredClass : Class :=
  { name := "Vector3"
    baseClasses := []
    members :=
      [.declaration .Public (.mk "Normalize" (.mk (.function normalizeFunction) false false)),
        .declaration .Protected (.mk "Normalize" (.mk (.function normalizeFunction) false false)),
        .declaration .Public (.mk "x_" floatType)] }

/-- The model of `Vector3(float x, float y, float z)` in class `Vector3`. -/
def vector3ConstructorModel : JSBFunction :=
  { klass := "Vector3", name := "Vector3", isConstructor := true, isDestructor := false,
    returnType := none,
    parameters := [floatParameter "x", floatParameter "y", floatParameter "z"] }

/-- The model of `Node* GetParent()` in class `Node`. -/
def getParentModel : JSBFunction :=
  { klass := "Node", name := "GetParent", isConstructor := false, isDestructor := false,
    returnType := some { JSBFunctionType.ofType (.classType "Node") with isPointer := true },
    parameters := [] }

/-- The class symbol `Vector3`: public `float x_`, public
`Vector3(float x, float y, float z)`, private `void Internal()`. -/
def vector3Class : Class :=
  { name := "Vector3"
    baseClasses := []
    members :=
      [.declaration .Public (.mk "x_" floatType),
        .function .Public vector3Constructor,
        .declaration .Private
          (.mk "Internal"
            (.mk (.function (.mk "Internal" false false (some (.mk .void false false)) []))
              false false))] }

/-- A class symbol `Vector3` deriving from `Node` (registered) and `Foo` (not
registered), without members. -/
def derivedClass : Class :=
  { name := "Vector3", baseClasses := [{ name := "Node" }, { name := "Foo" }], members := [] }

/-- A visitor at the start of header `Vector3.h` of module `Math`. -/
def sampleVisitor : JSBHeaderVisitor :=
  { header_ := "Vector3.h"
    module_ := { name := "Math", classes := [], constants := [] }
    bindings_ := sampleBindings
    log := [] }

/-- A class symbol `Quaternion`, not registered, deriving from `Node` and
declaring a constructor. -/
def quaternionClass : Class :=
  { name := "Quaternion"
    baseClasses := [{ name := "Node" }]
    members := [.function .Public (.mk "Quaternion" false false none [])] }

/-- The pure-virtual function `virtual void Update(...) = 0`, variadic. -/
def updateFunction : Function := .mk "Update" true true (some (.mk .void false false)) []

/-- The pure-virtual function `virtual void Draw() = 0`. -/
def drawFunction : Function := .mk "Draw" false true (some (.mk .void false false)) []

/-- The class symbol `Node` whose only member is the private declaration of the
pure-virtual `Draw`. -/
def privateAbstractClass : Class :=
  { name := "Node"
    baseClasses := []
    members := [.declaration .Private (.mk "Draw" (.mk (.function drawFunction) false false))] }

/-- The class symbol `Node` whose only member is the public, variadic,
pure-virtual `Update`. -/
def rejectedAbstractClass : Class :=
  { name := "Node", baseClasses := [], members := [.function .Public updateFunction] }

/-- The free declaration `const int MAX_COUNT = 10;`. -/
def maxCountDeclaration : Declaration := .mk "MAX_COUNT" intType

/-- The free declaration `MyEnum DEFAULT_MODE;`, its type the name `MyEnum`. -/
def defaultModeDeclaration : Declaration :=
  .mk "DEFAULT_MODE" (.mk (.named "MyEnum") false false)

/-- A free declaration `DEFAULT_MODE` whose type is the enum `MyEnum` itself. -/
def enumModeDeclaration : Declaration :=
  .mk "DEFAULT_MODE" (.mk (.enumType "MyEnum") false false)

/-- A registry in which the reserved names are also registered: classes
`String`, `JS_HEAP_PTR` and `Shape`, enums `String`, `StringHash`, `Shape` and
`Color`. -/
def crowdedBindings : JSBindings :=
  { classes := [registeredClass "String", registeredClass "JS_HEAP_PTR", registeredClass "Shape"]
    enums := [{ name := "String" }, { name := "StringHash" }, { name := "Shape" },
      { name := "Color" }] }

/-- A bare `signed`: no explicit base type, flagged signed. -/
def bareSignedType : FullySpecifiedType := .mk .undefined true false

/-- A bare `unsigned`: no explicit base type, flagged unsigned. -/
def bareUnsignedType : FullySpecifiedType := .mk .undefined false true

/-- The type `Node*&`: a reference to a pointer to `Node`. -/
def nodePointerReferenceType : FullySpecifiedType :=
  .mk (.reference nodePointerType) false false

/-- A pointer to a reference to `Node`. -/
def nodeReferencePointerType : FullySpecifiedType :=
  .mk (.pointer (.mk (.reference (.mk (.named "Node") false false)) false false)) false false

/-- A pointer to a reference to `String`. -/
def stringReferencePointerType : FullySpecifiedType :=
  .mk (.pointer (.mk (.reference (.mk (.named "String") false false)) false false)) false false

/-- The class symbol `Node` with public `Node* GetParent()` and `int* GetRaw()`. -/
def nodeClass : Class :=
  { name := "Node"
    baseClasses := []
    members := [.function .Public getParentFunction, .function .Public getRawFunction] }

/-- The parameter `(Node*, name)`. -/
def nodePointerParameter (name : String) : JSBFunctionType :=
  { type := .classType "Node", isPointer := true, isSharedPtr := false, isReference := false,
    name := name, initializer := "" }

/-- The class symbol `Node` whose only member is the public declaration
`virtual void Draw() = 0;`. -/
def publicAbstractClass : Class :=
  { name := "Node"
    baseClasses := []
    members := [.declaration .Public (.mk "Draw" (.mk (.function drawFunction) false false))] }

/-- The model of `virtual void Draw() = 0;` in class `Node`. -/
def drawModel : JSBFunction :=
  { klass := "Node", name := "Draw", isConstructor := false, isDestructor := false,
    returnType := none, parameters := [] }

/-! ## Slots -/

theorem unwrapPointer_fst (type : CppType) : (unwrapPointer type).1 = type.isPointerType := by
  cases type <;> rfl

theorem unwrapReference_fst (type : CppType) :
    (unwrapReference type).1 = type.isReferenceType := by
  cases type <;> rfl

theorem unwrapPointer_snd_of_reference (type : CppType) (h : type.isReferenceType = true) :
    (unwrapPointer type).2 = type := by
  cases type <;> first | rfl | cases h

/-- A slot whose type is a pointer or a reference has one of the two qualifiers set. -/
theorem qualifier_of_wrapper (fst : FullySpecifiedType)
    (h : fst.type.isPointerType = true ∨ fst.type.isReferenceType = true) :
    ((unwrapPointer fst.type).1 || (unwrapReference (unwrapPointer fst.type).2).1) = true := by
  rcases h with h | h
  · simp [unwrapPointer_fst, h]
  · simp [unwrapReference_fst, unwrapPointer_snd_of_reference _ h, h]

theorem mapCoreType_integer (bindings : JSBindings) (fst : FullySpecifiedType)
    (kind : IntegerKind) :
    mapCoreType bindings fst (.integer kind) =
      some (.primitive (JSBPrimitiveType.ofKind (.ofIntegerKind kind))) := by
  cases hu : fst.isUnsigned <;> simp [mapCoreType, processTypeConversion, hu,
    CppType.isUndefinedType]

theorem mapCoreType_float (bindings : JSBindings) (fst : FullySpecifiedType)
    (kind : FloatKind) :
    mapCoreType bindings fst (.float kind) =
      some (.primitive (JSBPrimitiveType.ofKind .Float)) := by
  cases hu : fst.isUnsigned <;> simp [mapCoreType, processTypeConversion, hu,
    CppType.isUndefinedType]

theorem mapCoreType_bare_unsigned (bindings : JSBindings) (fst : FullySpecifiedType)
    (type : CppType) (hu : fst.isUnsigned = true) (ht : type.isUndefinedType = true) :
    mapCoreType bindings fst type = some (.primitive { kind := .Int, isUnsigned := true }) := by
  simp [mapCoreType, hu, ht]

/-- Unfolding of `processFunctionType` for a mapped core type. -/
theorem processFunctionType_of_mapped (bindings : JSBindings) (fst : FullySpecifiedType)
    (jtype : JSBType) (h : mapCoreType bindings fst (unwrappedType fst) = some jtype) :
    processFunctionType bindings fst =
      if ((unwrapPointer fst.type).1 || (unwrapReference (unwrapPointer fst.type).2).1)
          && jtype.asPrimitiveType.isSome then none
      else some { JSBFunctionType.ofType jtype with
        isPointer := (unwrapPointer fst.type).1, isSharedPtr := false,
        isReference := (unwrapReference (unwrapPointer fst.type).2).1 } := by
  unfold unwrappedType at h
  simp only [processFunctionType, h]

/-- Unfolding of `processFunctionType` for an unmapped core type. -/
theorem processFunctionType_of_unmapped (bindings : JSBindings) (fst : FullySpecifiedType)
    (h : mapCoreType bindings fst (unwrappedType fst) = none) :
    processFunctionType bindings fst = none := by
  unfold unwrappedType at h
  simp only [processFunctionType, h]

/-- A successful slot carries the mapped core type and the two qualifiers, and
a qualified one is not primitive. -/
theorem processFunctionType_some (bindings : JSBindings) (fst : FullySpecifiedType)
    (ft : JSBFunctionType) (h : processFunctionType bindings fst = some ft) :
    mapCoreType bindings fst (unwrappedType fst) = some ft.type ∧
    ft.isPointer = (unwrapPointer fst.type).1 ∧
    ft.isReference = (unwrapReference (unwrapPointer fst.type).2).1 ∧
    ft.isSharedPtr = false ∧ ft.name = "" ∧ ft.initializer = "" ∧
    ((ft.isPointer || ft.isReference) = true → ft.type.asPrimitiveType = none) := by
  cases hm : mapCoreType bindings fst (unwrappedType fst) with
  | none => rw [processFunctionType_of_unmapped _ _ hm] at h; cases h
  | some jtype =>
    rw [processFunctionType_of_mapped _ _ _ hm] at h
    split at h
    · cases h
    · rename_i hq
      cases h
      refine ⟨rfl, rfl, rfl, rfl, rfl, rfl, ?_⟩
      intro hpr
      simp only [JSBFunctionType.ofType] at hpr ⊢
      cases hp : jtype.asPrimitiveType with
      | none => rfl
      | some p => simp [hpr, hp] at hq

/-- C1: a slot that carries a pointer or a reference wrapper and whose unwrapped
core type maps to a Primitive (an integer, a float, or the bare `unsigned`) is
Unsupported; a successful slot never has a Primitive type together with
`isPointer` or `isReference`. -/
theorem processFunctionType_no_qualified_primitive (bindings : JSBindings)
    (fst : FullySpecifiedType) :
    (∀ p : JSBPrimitiveType,
      (fst.type.isPointerType = true ∨ fst.type.isReferenceType = true) →
      mapCoreType bindings fst (unwrappedType fst) = some (.primitive p) →
      processFunctionType bindings fst = none) ∧
    ((fst.type.isPointerType = true ∨ fst.type.isReferenceType = true) →
      ((unwrappedType fst).isIntegerType = true ∨ (unwrappedType fst).isFloatType = true ∨
        ((unwrappedType fst).isUndefinedType = true ∧ fst.isUnsigned = true)) →
      processFunctionType bindings fst = none) ∧
    (∀ (ft : JSBFunctionType) (p : JSBPrimitiveType),
      processFunctionType bindings fst = some ft → ft.type = .primitive p →
      ft.isPointer = false ∧ ft.isReference = false) := by
  have key : ∀ p : JSBPrimitiveType,
      (fst.type.isPointerType = true ∨ fst.type.isReferenceType = true) →
      mapCoreType bindings fst (unwrappedType fst) = some (.primitive p) →
      processFunctionType bindings fst = none := by
    intro p hw hm
    rw [processFunctionType_of_mapped _ _ _ hm, qualifier_of_wrapper fst hw]
    rfl
  refine ⟨key, ?_, ?_⟩
  · intro hw hc
    have hprim : ∃ p, mapCoreType bindings fst (unwrappedType fst) = some (.primitive p) := by
      rcases hc with hc | hc | ⟨hc, hu⟩
      · cases ht : unwrappedType fst <;> rw [ht] at hc <;>
          first | exact ⟨_, mapCoreType_integer bindings fst _⟩ | cases hc
      · cases ht : unwrappedType fst <;> rw [ht] at hc <;>
          first | exact ⟨_, mapCoreType_float bindings fst _⟩ | cases hc
      · exact ⟨_, mapCoreType_bare_unsigned bindings fst _ hu hc⟩
    obtain ⟨p, hp⟩ := hprim
    exact key p hw hp
  · intro ft p h hprim
    obtain ⟨-, -, -, -, -, -, hq⟩ := processFunctionType_some bindings fst ft h
    cases hptr : ft.isPointer <;> cases href : ft.isReference <;>
      simp [hptr, href, hprim, JSBType.asPrimitiveType] at hq ⊢

/-- C1 at the return slot `int*` of `int* GetRaw()`: Unsupported. -/
theorem processFunctionType_no_qualified_primitive_witness :
    (intPointerType.type.isPointerType = true ∨ intPointerType.type.isReferenceType = true) ∧
    mapCoreType sampleBindings intPointerType (unwrappedType intPointerType) =
      some (.primitive { kind := .Int, isUnsigned := false }) ∧
    getRawFunction.returnType = some intPointerType ∧
    processFunctionType sampleBindings intPointerType = none :=
  ⟨Or.inl rfl, rfl, rfl,
    (processFunctionType_no_qualified_primitive sampleBindings intPointerType).1
      { kind := .Int, isUnsigned := false } (Or.inl rfl) rfl⟩

/-- C2: the code at `unsigned int` (and at every integer type, whatever its
declared signedness): the Primitive has the integer's kind and an `unsigned`
flag that is never set, so the declared signedness of `unsigned int` is lost,
while the bare `unsigned` of the neighbouring branch keeps it. -/
theorem processFunctionType_unsigned_int_flag (bindings : JSBindings) :
    processTypeConversion bindings unsignedIntType.type =
      some (.primitive { kind := .Int, isUnsigned := false }) ∧
    unsignedIntType.isUnsigned = true ∧
    processFunctionType bindings unsignedIntType =
      some (JSBFunctionType.ofType (.primitive { kind := .Int, isUnsigned := false })) ∧
    (∀ (kind : IntegerKind) (isSigned isUnsigned : Bool),
      processFunctionType bindings (.mk (.integer kind) isSigned isUnsigned) =
        some (JSBFunctionType.ofType
          (.primitive { kind := .ofIntegerKind kind, isUnsigned := false }))) ∧
    processFunctionType bindings (.mk .undefined false true) =
      some (JSBFunctionType.ofType (.primitive { kind := .Int, isUnsigned := true })) := by
  refine ⟨rfl, rfl, rfl, ?_, rfl⟩
  intro kind isSigned isUnsigned
  cases isUnsigned <;> rfl

/-! ## Functions -/

/-- The modelled `StartsWith` is the usual "begins with": the string is the
literal followed by some rest. -/
theorem StartsWith_iff (s literal : String) :
    StartsWith s literal = true ↔ ∃ rest : String, s = literal ++ rest := by
  unfold StartsWith
  rw [List.isPrefixOf_iff_prefix]
  constructor
  · rintro ⟨t, ht⟩
    exact ⟨⟨t⟩, String.ext (by simpa using ht.symm)⟩
  · rintro ⟨rest, rfl⟩
    exact ⟨rest.data, by simp⟩

theorem processArguments_eq (bindings : JSBindings) (args : List Symbol) (jf : JSBFunction) :
    processArguments bindings args jf =
      match argumentParameters bindings args with
      | none => none
      | some ps => some { jf with parameters := jf.parameters ++ ps } := by
  induction args generalizing jf with
  | nil => simp [processArguments, argumentParameters]
  | cons symbol rest ih =>
    cases ha : symbol.asArgument with
    | none => simp [processArguments, argumentParameters, ha]
    | some arg =>
      cases hp : processFunctionArgType bindings arg with
      | none => simp [processArguments, argumentParameters, argumentParameter, ha, hp]
      | some ftype =>
        simp only [processArguments, argumentParameters, argumentParameter, ha, hp, ih]
        cases argumentParameters bindings rest with
        | none => rfl
        | some ps => simp [JSBFunction.AddParameter]

theorem processReturn_eq (bindings : JSBindings) (function : Function) (jf : JSBFunction) :
    processReturn bindings function jf =
      match returnDescriptor bindings function with
      | none => none
      | some r => some (match r with
        | none => jf
        | some jtype => { jf with returnType := some jtype }) := by
  unfold processReturn returnDescriptor processFunctionReturnType
  cases hr : function.returnType with
  | none => rfl
  | some returnType =>
    cases hv : returnType.type.isVoidType with
    | true => simp [hr, hv]
    | false =>
      cases hp : processFunctionType bindings returnType <;> simp [hr, hv, hp]

/-- What `processFunction` returns, field by field. -/
theorem processFunction_eq (bindings : JSBindings) (klass : JSBClass) (function : Function) :
    processFunction bindings klass function =
      if function.isVariadic then none
      else if StartsWith (getNameString function.name) "operator " then none
      else
        match returnDescriptor bindings function with
        | none => none
        | some r =>
          match argumentParameters bindings function.arguments with
          | none => none
          | some ps =>
            some { klass := klass.className
                   name := getNameString function.name
                   isConstructor := getNameString function.name == klass.GetClassName
                   isDestructor := StartsWith (getNameString function.name) "~"
                   returnType := r
                   parameters := ps } := by
  unfold processFunction
  cases hv : function.isVariadic with
  | true => simp
  | false =>
    cases ho : StartsWith (getNameString function.name) "operator " with
    | true => simp [JSBClass.newFunction, ho]
    | false =>
      simp only [JSBClass.newFunction, ho, processReturn_eq, processArguments_eq,
        Function.hasArguments]
      cases hr : returnDescriptor bindings function with
      | none => simp
      | some r =>
        cases hargs : function.arguments with
        | nil =>
          cases hc : (getNameString function.name == klass.GetClassName) <;>
            cases hd : StartsWith (getNameString function.name) "~" <;>
            cases r <;> simp [argumentParameters, hc, hd]
        | cons a rest =>
          cases hps : argumentParameters bindings (a :: rest) with
          | none => simp
          | some ps =>
            cases hc : (getNameString function.name == klass.GetClassName) <;>
              cases hd : StartsWith (getNameString function.name) "~" <;>
              cases r <;> simp [hc, hd]

theorem returnDescriptor_isSome (bindings : JSBindings) (function : Function) :
    (returnDescriptor bindings function).isSome = true ↔
      ∀ returnType, function.returnType = some returnType →
        returnType.type.isVoidType = true ∨
          (processFunctionType bindings returnType).isSome = true := by
  unfold returnDescriptor
  cases hr : function.returnType with
  | none => simp
  | some returnType =>
    cases hv : returnType.type.isVoidType with
    | true => simp [hv]
    | false => cases hp : processFunctionType bindings returnType <;> simp [hv, hp]

theorem argumentParameter_isSome (bindings : JSBindings) (arg : Argument) :
    (argumentParameter bindings arg).isSome = (processFunctionType bindings arg.type).isSome := by
  unfold argumentParameter processFunctionArgType
  cases processFunctionType bindings arg.type <;> rfl

theorem argumentParameters_isSome (bindings : JSBindings) (args : List Symbol) :
    (argumentParameters bindings args).isSome = true ↔
      ∀ symbol ∈ args, ∃ arg, symbol.asArgument = some arg ∧
        (processFunctionType bindings arg.type).isSome = true := by
  induction args with
  | nil => simp [argumentParameters]
  | cons symbol rest ih =>
    simp only [List.mem_cons, forall_eq_or_imp, ← ih]
    cases ha : symbol.asArgument with
    | none => simp [argumentParameters, ha]
    | some arg =>
      have hs := argumentParameter_isSome bindings arg
      cases hp : argumentParameter bindings arg with
      | none =>
        rw [hp] at hs
        simp [argumentParameters, ha, hp, ← hs]
      | some p =>
        rw [hp] at hs
        cases hps : argumentParameters bindings rest <;>
          simp [argumentParameters, ha, hp, hps, ← hs]

/-- A built parameter is the mapped slot of its argument, with the argument's
name and the initializer's text. -/
theorem argumentParameter_some (bindings : JSBindings) (arg : Argument) (p : JSBFunctionType)
    (h : argumentParameter bindings arg = some p) :
    ∃ ft, processFunctionType bindings arg.type = some ft ∧
      p.type = ft.type ∧ p.isPointer = ft.isPointer ∧ p.isReference = ft.isReference ∧
      p.name = getNameString arg.name ∧
      (∀ chars, arg.initializer = some chars → p.initializer = chars) := by
  unfold argumentParameter processFunctionArgType at h
  cases hp : processFunctionType bindings arg.type with
  | none => simp [hp] at h
  | some ft =>
    refine ⟨ft, rfl, ?_⟩
    cases hi : arg.initializer with
    | none =>
      simp only [hp, hi, Option.some.injEq] at h
      subst h
      simp
    | some chars =>
      simp only [hp, hi, Option.some.injEq] at h
      subst h
      simp

/-- Position by position, the parameters of an accepted argument list. -/
theorem argumentParameters_some (bindings : JSBindings) (args : List Symbol)
    (ps : List JSBFunctionType) (h : argumentParameters bindings args = some ps) :
    ps.length = args.length ∧
    ∀ (i : Nat) (symbol : Symbol), args[i]? = some symbol →
      ∃ arg p, symbol.asArgument = some arg ∧ ps[i]? = some p ∧
        argumentParameter bindings arg = some p := by
  induction args generalizing ps with
  | nil =>
    simp only [argumentParameters, Option.some.injEq] at h
    subst h
    simp
  | cons symbol rest ih =>
    unfold argumentParameters at h
    cases ha : symbol.asArgument with
    | none => simp [ha] at h
    | some arg =>
      cases hp : argumentParameter bindings arg with
      | none => simp [ha, hp] at h
      | some p =>
        cases hps : argumentParameters bindings rest with
        | none => simp [ha, hp, hps] at h
        | some qs =>
          simp only [ha, hp, hps, Option.some.injEq] at h
          subst h
          obtain ⟨hlen, hidx⟩ := ih qs hps
          refine ⟨by simp [hlen], ?_⟩
          intro i s hs
          cases i with
          | zero =>
            simp only [List.getElem?_cons_zero, Option.some.injEq] at hs
            subst hs
            exact ⟨arg, p, ha, by simp, hp⟩
          | succ j =>
            simp only [List.getElem?_cons_succ] at hs ⊢
            exact hidx j s hs

/-- An accepted function, field by field. -/
theorem processFunction_some (bindings : JSBindings) (klass : JSBClass) (function : Function)
    (jf : JSBFunction) (h : processFunction bindings klass function = some jf) :
    function.isVariadic = false ∧
    StartsWith (getNameString function.name) "operator " = false ∧
    jf.klass = klass.className ∧
    jf.name = getNameString function.name ∧
    jf.isConstructor = (getNameString function.name == klass.GetClassName) ∧
    jf.isDestructor = StartsWith (getNameString function.name) "~" ∧
    returnDescriptor bindings function = some jf.returnType ∧
    argumentParameters bindings function.arguments = some jf.parameters := by
  rw [processFunction_eq] at h
  cases hv : function.isVariadic with
  | true => simp [hv] at h
  | false =>
    cases ho : StartsWith (getNameString function.name) "operator " with
    | true => simp [hv, ho] at h
    | false =>
      cases hr : returnDescriptor bindings function with
      | none => simp [hv, ho, hr] at h
      | some r =>
        cases hps : argumentParameters bindings function.arguments with
        | none => simp [hv, ho, hr, hps] at h
        | some ps =>
          simp only [hv, ho, hr, hps, Bool.false_eq_true, if_false, Option.some.injEq] at h
          subst h
          exact ⟨rfl, rfl, rfl, rfl, rfl, rfl, rfl, rfl⟩

/-- C3: a variadic function symbol is Rejected, whatever its owning class, the
registry, its name, its return type and its arguments. -/
theorem processFunction_rejects_variadic (bindings : JSBindings) (klass : JSBClass)
    (function : Function) (h : function.isVariadic = true) :
    processFunction bindings klass function = none := by
  rw [processFunction_eq]
  simp [h]

/-- C3 at `void Print(...)`: Rejected, although its twin that is not variadic
is accepted. -/
theorem processFunction_rejects_variadic_witness :
    printFunction.isVariadic = true ∧
    processFunction sampleBindings (registeredClass "Node") printFunction = none ∧
    (processFunction sampleBindings (registeredClass "Node") printFunctionPlain).isSome = true :=
  ⟨rfl, processFunction_rejects_variadic sampleBindings (registeredClass "Node") printFunction rfl,
    by decide⟩

/-- C4: a function symbol whose resolved name starts with the literal
`"operator "` (trailing space included) is Rejected, for every owning class,
registry, return type and argument list. -/
theorem processFunction_rejects_operator (bindings : JSBindings) (klass : JSBClass)
    (function : Function)
    (h : ∃ rest : String, getNameString function.name = "operator " ++ rest) :
    processFunction bindings klass function = none := by
  have hs : StartsWith (getNameString function.name) "operator " = true :=
    (StartsWith_iff _ _).mpr h
  rw [processFunction_eq]
  simp [hs]

/-- C4 at `operator ==`: Rejected. -/
theorem processFunction_rejects_operator_witness :
    getNameString operatorFunction.name = "operator " ++ "==" ∧
    processFunction sampleBindings (registeredClass "Node") operatorFunction = none :=
  ⟨rfl, processFunction_rejects_operator sampleBindings (registeredClass "Node") operatorFunction
    ⟨"==", rfl⟩⟩

/-- C5: `processFunction` returns a Function exactly when the symbol is not
variadic, its resolved name does not start with `"operator "`, its return type
is absent, void or a slot that `processFunctionType` maps, and every entry of
its argument list is an argument whose slot `processFunctionType` maps; in every
other case it returns Rejected. -/
theorem processFunction_isSome_iff (bindings : JSBindings) (klass : JSBClass)
    (function : Function) :
    ((processFunction bindings klass function).isSome = true ↔
      (function.isVariadic = false ∧
        StartsWith (getNameString function.name) "operator " = false ∧
        (∀ returnType, function.returnType = some returnType →
          returnType.type.isVoidType = true ∨
            (processFunctionType bindings returnType).isSome = true) ∧
        (∀ symbol ∈ function.arguments, ∃ arg, symbol.asArgument = some arg ∧
          (processFunctionType bindings arg.type).isSome = true))) ∧
    (processFunction bindings klass function = none ↔
      ¬ (function.isVariadic = false ∧
        StartsWith (getNameString function.name) "operator " = false ∧
        (∀ returnType, function.returnType = some returnType →
          returnType.type.isVoidType = true ∨
            (processFunctionType bindings returnType).isSome = true) ∧
        (∀ symbol ∈ function.arguments, ∃ arg, symbol.asArgument = some arg ∧
          (processFunctionType bindings arg.type).isSome = true))) := by
  have key : (processFunction bindings klass function).isSome = true ↔
      (function.isVariadic = false ∧
        StartsWith (getNameString function.name) "operator " = false ∧
        (∀ returnType, function.returnType = some returnType →
          returnType.type.isVoidType = true ∨
            (processFunctionType bindings returnType).isSome = true) ∧
        (∀ symbol ∈ function.arguments, ∃ arg, symbol.asArgument = some arg ∧
          (processFunctionType bindings arg.type).isSome = true)) := by
    rw [← returnDescriptor_isSome, ← argumentParameters_isSome, processFunction_eq]
    cases hv : function.isVariadic with
    | true => simp
    | false =>
      cases ho : StartsWith (getNameString function.name) "operator " with
      | true => simp
      | false =>
        cases hr : returnDescriptor bindings function with
        | none => simp
        | some r =>
          cases hps : argumentParameters bindings function.arguments <;> simp
  refine ⟨key, ?_⟩
  rw [← key]
  cases processFunction bindings klass function <;> simp

/-- C5 at two functions: `Vector3(float x, float y, float z)` meets the four
conditions and is accepted; `int* GetRaw()` fails the return-type condition and
is Rejected. -/
theorem processFunction_isSome_iff_witness :
    (processFunction sampleBindings (registeredClass "Vector3") vector3Constructor).isSome = true ∧
    processFunction sampleBindings (registeredClass "Node") getRawFunction = none :=
  ⟨(processFunction_isSome_iff sampleBindings (registeredClass "Vector3")
      vector3Constructor).1.mpr
      ⟨rfl, rfl, (fun _ h => nomatch h), by
        intro symbol hs
        simp only [vector3Constructor, Function.arguments, List.mem_cons, List.mem_singleton,
          List.mem_nil_iff, or_false] at hs
        rcases hs with rfl | rfl | rfl <;> exact ⟨_, rfl, rfl⟩⟩,
    (processFunction_isSome_iff sampleBindings (registeredClass "Node") getRawFunction).2.mpr
      (fun h => by
        have h3 := h.2.2.1 intPointerType rfl
        revert h3
        decide)⟩

/-- C6: an accepted Function is fully well-formed: it has exactly as many
parameters as the symbol has arguments, and the i-th parameter is the
successful `processFunctionType` result of the i-th argument's type (same Type,
`isPointer`, `isReference`), with the i-th argument's name and, when the
argument has an initializer, that initializer's text. -/
theorem processFunction_parameters (bindings : JSBindings) (klass : JSBClass)
    (function : Function) (jf : JSBFunction)
    (h : processFunction bindings klass function = some jf) :
    jf.parameters.length = function.argumentCount ∧
    ∀ (i : Nat) (symbol : Symbol), function.arguments[i]? = some symbol →
      ∃ arg ft p, symbol.asArgument = some arg ∧
        processFunctionType bindings arg.type = some ft ∧
        jf.parameters[i]? = some p ∧
        p.type = ft.type ∧ p.isPointer = ft.isPointer ∧ p.isReference = ft.isReference ∧
        p.name = getNameString arg.name ∧
        (∀ chars, arg.initializer = some chars → p.initializer = chars) := by
  obtain ⟨-, -, -, -, -, -, -, hps⟩ := processFunction_some bindings klass function jf h
  obtain ⟨hlen, hidx⟩ := argumentParameters_some bindings function.arguments jf.parameters hps
  refine ⟨hlen, ?_⟩
  intro i symbol hs
  obtain ⟨arg, p, ha, hp, hap⟩ := hidx i symbol hs
  obtain ⟨ft, hft, hrest⟩ := argumentParameter_some bindings arg p hap
  exact ⟨arg, ft, p, ha, hft, hp, hrest⟩

/-- C6 at `Vector3(float x, float y, float z)`: the parameters are
`[(Float,"x"),(Float,"y"),(Float,"z")]`, as many as the arguments; and at
`void SetScale(float scale = 1.0f)` the parameter carries the text `1.0f`. -/
theorem processFunction_parameters_witness :
    processFunction sampleBindings (registeredClass "Vector3") vector3Constructor =
      some vector3ConstructorModel ∧
    vector3ConstructorModel.parameters =
      [floatParameter "x", floatParameter "y", floatParameter "z"] ∧
    vector3ConstructorModel.parameters.length = vector3Constructor.argumentCount ∧
    (processFunction sampleBindings (registeredClass "Node") setScaleFunction).map
        (fun jf => jf.parameters) =
      some [{ floatParameter "scale" with initializer := "1.0f" }] :=
  ⟨rfl, rfl,
    (processFunction_parameters sampleBindings (registeredClass "Vector3") vector3Constructor
      vector3ConstructorModel rfl).1,
    rfl⟩

/-- C7: every Function returned by `processFunction` carries exactly one role
from Normal, Constructor, Destructor: Constructor when its name equals the
owning class's name, Destructor when its name begins with `~`, Normal
otherwise; the constructor and the destructor flag are never both set. The
owning class's name is a class name, so it does not begin with `~`. -/
theorem processFunction_role (bindings : JSBindings) (klass : JSBClass) (function : Function)
    (jf : JSBFunction) (h : processFunction bindings klass function = some jf)
    (hk : ¬ ∃ rest : String, klass.GetClassName = "~" ++ rest) :
    (∃! role : Role, jf.hasRole role = true) ∧
    (getNameString function.name = klass.GetClassName → jf.hasRole .Constructor = true) ∧
    ((∃ rest : String, getNameString function.name = "~" ++ rest) →
      jf.hasRole .Destructor = true) ∧
    (getNameString function.name ≠ klass.GetClassName →
      (¬ ∃ rest : String, getNameString function.name = "~" ++ rest) →
      jf.hasRole .Normal = true) ∧
    (jf.isConstructor = true ↔ getNameString function.name = klass.GetClassName) ∧
    (jf.isDestructor = true ↔ ∃ rest : String, getNameString function.name = "~" ++ rest) ∧
    ¬ (jf.isConstructor = true ∧ jf.isDestructor = true) := by
  obtain ⟨-, -, -, -, hc, hd, -, -⟩ := processFunction_some bindings klass function jf h
  have hci : jf.isConstructor = true ↔ getNameString function.name = klass.GetClassName := by
    simp [hc]
  have hdi : jf.isDestructor = true ↔
      ∃ rest : String, getNameString function.name = "~" ++ rest := by
    rw [hd, StartsWith_iff]
  have hnot : ¬ (jf.isConstructor = true ∧ jf.isDestructor = true) := by
    rintro ⟨h1, h2⟩
    obtain ⟨rest, hrest⟩ := hdi.mp h2
    exact hk ⟨rest, (hci.mp h1) ▸ hrest⟩
  refine ⟨?_, ?_, ?_, ?_, hci, hdi, hnot⟩
  · cases hcv : jf.isConstructor <;> cases hdv : jf.isDestructor
    · exact ⟨.Normal, by simp [JSBFunction.hasRole, hcv, hdv], fun r hr => by
        cases r <;> simp [JSBFunction.hasRole, hcv, hdv] at hr ⊢⟩
    · exact ⟨.Destructor, by simp [JSBFunction.hasRole, hdv], fun r hr => by
        cases r <;> simp [JSBFunction.hasRole, hcv, hdv] at hr ⊢⟩
    · exact ⟨.Constructor, by simp [JSBFunction.hasRole, hcv], fun r hr => by
        cases r <;> simp [JSBFunction.hasRole, hcv, hdv] at hr ⊢⟩
    · exact absurd ⟨hcv, hdv⟩ hnot
  · intro hn
    exact hci.mpr hn
  · intro hn
    exact hdi.mpr hn
  · intro hn1 hn2
    have h1 : jf.isConstructor = false := by
      cases hcv : jf.isConstructor
      · rfl
      · exact absurd (hci.mp hcv) hn1
    have h2 : jf.isDestructor = false := by
      cases hdv : jf.isDestructor
      · rfl
      · exact absurd (hdi.mp hdv) hn2
    simp [JSBFunction.hasRole, h1, h2]

/-- C7 in class `Vector3`: the constructor `Vector3(float x, float y, float z)`
has the role Constructor and no other, `~Vector3()` is a Destructor and
`void Normalize()` is Normal. -/
theorem processFunction_role_witness :
    (¬ ∃ rest : String, (registeredClass "Vector3").GetClassName = "~" ++ rest) ∧
    (∃! role : Role, vector3ConstructorModel.hasRole role = true) ∧
    vector3ConstructorModel.hasRole .Constructor = true ∧
    (processFunction sampleBindings (registeredClass "Vector3") vector3Destructor).map
        (fun jf => (jf.hasRole .Normal, jf.hasRole .Constructor, jf.hasRole .Destructor)) =
      some (false, false, true) ∧
    (processFunction sampleBindings (registeredClass "Vector3") normalizeFunction).map
        (fun jf => (jf.hasRole .Normal, jf.hasRole .Constructor, jf.hasRole .Destructor)) =
      some (true, false, false) :=
  ⟨(fun h => by
      have hs := (StartsWith_iff (registeredClass "Vector3").GetClassName "~").mpr h
      revert hs
      decide),
    (processFunction_role sampleBindings (registeredClass "Vector3") vector3Constructor
      vector3ConstructorModel rfl (fun h => by
        have hs := (StartsWith_iff (registeredClass "Vector3").GetClassName "~").mpr h
        revert hs
        decide)).1,
    rfl, by decide, by decide⟩

/-- C8: in an accepted function the return descriptor is absent when the
declared return type is absent or void, and otherwise it is the successful
`processFunctionType` result of the declared return type. -/
theorem processFunction_returnType (bindings : JSBindings) (klass : JSBClass)
    (function : Function) (jf : JSBFunction)
    (h : processFunction bindings klass function = some jf) :
    (function.returnType = none → jf.returnType = none) ∧
    (∀ returnType, function.returnType = some returnType →
      returnType.type.isVoidType = true → jf.returnType = none) ∧
    (∀ returnType, function.returnType = some returnType →
      returnType.type.isVoidType = false →
      ∃ ft, processFunctionType bindings returnType = some ft ∧ jf.returnType = some ft) := by
  obtain ⟨-, -, -, -, -, -, hr, -⟩ := processFunction_some bindings klass function jf h
  unfold returnDescriptor at hr
  refine ⟨?_, ?_, ?_⟩
  · intro hn
    simp only [hn, Option.some.injEq] at hr
    exact hr.symm
  · intro returnType hs hv
    simp only [hs, hv, if_true, Option.some.injEq] at hr
    exact hr.symm
  · intro returnType hs hv
    cases hp : processFunctionType bindings returnType with
    | none => simp [hs, hv, hp] at hr
    | some ft =>
      simp only [hs, hv, hp, Bool.false_eq_true, if_false, Option.some.injEq] at hr
      exact ⟨ft, rfl, hr.symm⟩

/-- C8 at `Node* GetParent()` with `Node` registered: accepted, with return
descriptor `ClassRef(Node)`, `isPointer` set and `isReference` not set; and at
`int* GetRaw()`: Rejected. -/
theorem processFunction_returnType_witness :
    processFunction sampleBindings (registeredClass "Node") getParentFunction =
      some getParentModel ∧
    (∃ ft, processFunctionType sampleBindings nodePointerType = some ft ∧
      getParentModel.returnType = some ft) ∧
    getParentModel.returnType =
      some { type := .classType "Node", isPointer := true, isSharedPtr := false,
             isReference := false, name := "", initializer := "" } ∧
    processFunction sampleBindings (registeredClass "Node") getRawFunction = none :=
  ⟨rfl,
    (processFunction_returnType sampleBindings (registeredClass "Node") getParentFunction
      getParentModel rfl).2.2 nodePointerType rfl rfl,
    rfl, rfl⟩

/-! ## The registry under writes through a class pointer -/

/-- A class found under a name carries that name. -/
theorem GetClass_className (b : JSBindings) (name : String) (c : JSBClass)
    (h : b.GetClass name = some c) : c.className = name := by
  unfold JSBindings.GetClass at h
  have hc := List.find?_some h
  simpa using hc

/-- Lookup after a write that keeps the class's name: the entry written to is
the updated one, every other entry is as before. -/
theorem find?_updateClassList (name n : String) (f : JSBClass → JSBClass)
    (hf : ∀ c, (f c).className = c.className) (cs : List JSBClass) :
    (updateClassList name f cs).find? (fun c => c.className == n) =
      if n = name then (cs.find? (fun c => c.className == n)).map f
      else cs.find? (fun c => c.className == n) := by
  induction cs with
  | nil => simp [updateClassList]
  | cons c cs ih =>
    by_cases hc : c.className = name
    · by_cases hn : n = name
      · simp [updateClassList, List.find?_cons, hc, hn, hf]
      · have hne : ¬ name = n := fun h => hn h.symm
        simp [updateClassList, List.find?_cons, hc, hn, hne, hf]
    · by_cases hcn : c.className = n
      · have hn : ¬ n = name := fun h => hc (hcn.trans h)
        simp [updateClassList, List.find?_cons, hc, hcn, hn]
      · have hb : (c.className == n) = false := by simpa using hcn
        simp only [updateClassList, beq_iff_eq, hc, if_false, List.find?_cons, hb, ih]

theorem GetClass_updateClass (b : JSBindings) (name n : String) (f : JSBClass → JSBClass)
    (hf : ∀ c, (f c).className = c.className) :
    (b.updateClass name f).GetClass n =
      if n = name then (b.GetClass n).map f else b.GetClass n :=
  find?_updateClassList name n f hf b.classes

/-- Two writes through the same class pointer are one write of the composition. -/
theorem updateClassList_comp (name : String) (f g : JSBClass → JSBClass)
    (hf : ∀ c, (f c).className = c.className) (cs : List JSBClass) :
    updateClassList name g (updateClassList name f cs) =
      updateClassList name (fun c => g (f c)) cs := by
  induction cs with
  | nil => rfl
  | cons c cs ih =>
    by_cases hc : c.className = name
    · simp [updateClassList, hc, hf]
    · simp [updateClassList, hc, ih]

theorem updateClass_comp (b : JSBindings) (name : String) (f g : JSBClass → JSBClass)
    (hf : ∀ c, (f c).className = c.className) :
    (b.updateClass name f).updateClass name g = b.updateClass name (fun c => g (f c)) := by
  simp [JSBindings.updateClass, updateClassList_comp name f g hf]

/-- A write that changes nothing leaves the registry as it is. -/
theorem updateClassList_self (name : String) (f : JSBClass → JSBClass)
    (hf : ∀ c, f c = c) (cs : List JSBClass) : updateClassList name f cs = cs := by
  induction cs with
  | nil => rfl
  | cons c cs ih =>
    by_cases hc : c.className = name
    · simp [updateClassList, hc, hf]
    · simp [updateClassList, hc, ih]

theorem updateClass_self (b : JSBindings) (name : String) (f : JSBClass → JSBClass)
    (hf : ∀ c, f c = c) : b.updateClass name f = b := by
  simp [JSBindings.updateClass, updateClassList_self name f hf]

/-- The type mapping looks only at which names are registered, so a write
through a class pointer does not change it. -/
theorem processTypeConversion_updateClass (b : JSBindings) (name : String)
    (f : JSBClass → JSBClass) (hf : ∀ c, (f c).className = c.className) (type : CppType) :
    processTypeConversion (b.updateClass name f) type = processTypeConversion b type := by
  cases type with
  | named n =>
    have henum : ∀ m, (b.updateClass name f).GetEnum m = b.GetEnum m := fun _ => rfl
    simp only [processTypeConversion, GetClass_updateClass b name _ f hf, henum]
    by_cases hn : getNameString n = name
    · cases hg : b.GetClass (getNameString n) <;> simp [hn, hg, hf]
    · simp [hn]
  | _ => rfl

theorem processFunctionType_updateClass (b : JSBindings) (name : String)
    (f : JSBClass → JSBClass) (hf : ∀ c, (f c).className = c.className)
    (fst : FullySpecifiedType) :
    processFunctionType (b.updateClass name f) fst = processFunctionType b fst := by
  simp only [processFunctionType, mapCoreType, processTypeConversion_updateClass b name f hf]

theorem argumentParameters_updateClass (b : JSBindings) (name : String)
    (f : JSBClass → JSBClass) (hf : ∀ c, (f c).className = c.className)
    (args : List Symbol) :
    argumentParameters (b.updateClass name f) args = argumentParameters b args := by
  induction args with
  | nil => rfl
  | cons symbol rest ih =>
    simp only [argumentParameters, argumentParameter, processFunctionArgType,
      processFunctionType_updateClass b name f hf, ih]

/-- Accepting a function does not depend on what was written to the classes. -/
theorem processFunction_updateClass (b : JSBindings) (name : String)
    (f : JSBClass → JSBClass) (hf : ∀ c, (f c).className = c.className)
    (klass : JSBClass) (function : Function) :
    processFunction (b.updateClass name f) klass function = processFunction b klass function := by
  simp only [processFunction_eq, returnDescriptor, argumentParameters_updateClass b name f hf,
    processFunctionType_updateClass b name f hf]

/-! ## Visiting a class -/

theorem GetClass_isSome_updateClass (b : JSBindings) (name n : String)
    (f : JSBClass → JSBClass) (hf : ∀ c, (f c).className = c.className) :
    ((b.updateClass name f).GetClass n).isSome = (b.GetClass n).isSome := by
  rw [GetClass_updateClass b name n f hf]
  split <;> simp

theorem resolvedBases_updateClass (b : JSBindings) (name : String)
    (f : JSBClass → JSBClass) (hf : ∀ c, (f c).className = c.className)
    (bases : List BaseClass) :
    resolvedBases (b.updateClass name f) bases = resolvedBases b bases := by
  simp only [resolvedBases, GetClass_isSome_updateClass b name _ f hf]

theorem baseDiagnostics_updateClass (b : JSBindings) (name key : String)
    (f : JSBClass → JSBClass) (hf : ∀ c, (f c).className = c.className)
    (bases : List BaseClass) :
    baseDiagnostics name (b.updateClass key f) bases = baseDiagnostics name b bases := by
  have h : ∀ n, ((b.updateClass key f).GetClass n).isNone = (b.GetClass n).isNone := by
    intro n
    have hs := GetClass_isSome_updateClass b key n f hf
    cases h1 : (b.updateClass key f).GetClass n <;> cases h2 : b.GetClass n <;>
      simp [h1, h2] at hs ⊢
  simp only [baseDiagnostics, h]

theorem acceptedFunctions_updateClass (b : JSBindings) (name : String)
    (f : JSBClass → JSBClass) (hf : ∀ c, (f c).className = c.className)
    (jclass : JSBClass) (members : List Symbol) :
    acceptedFunctions (b.updateClass name f) jclass members =
      acceptedFunctions b jclass members := by
  have h : memberContribution (b.updateClass name f) jclass = memberContribution b jclass := by
    funext symbol
    simp only [memberContribution, processFunction_updateClass b name f hf]
  simp only [acceptedFunctions, h]

/-- One round of the base-class loop, as a single write to the class and the log. -/
theorem visitBaseClass_eq (name : String) (jclass : JSBClass) (v : JSBHeaderVisitor)
    (bc : BaseClass) :
    JSBHeaderVisitor.visitBaseClass name jclass v bc =
      { header_ := v.header_
        module_ := v.module_
        bindings_ := v.bindings_.updateClass jclass.className (fun c =>
          { c with baseClasses := c.baseClasses ++ resolvedBases v.bindings_ [bc] })
        log := v.log ++ baseDiagnostics name v.bindings_ [bc] } := by
  unfold JSBHeaderVisitor.visitBaseClass
  cases hg : v.bindings_.GetClass (getNameString bc.name) with
  | none =>
    simp only [resolvedBases, baseDiagnostics, List.filter_cons, hg, Option.isSome_none,
      Option.isNone_none, List.filter_nil, List.map_nil, List.map_cons, if_true,
      Bool.false_eq_true, if_false, baseWarning]
    rw [updateClass_self _ _ _ (by intro c; simp)]
  | some base =>
    have hb := GetClass_className _ _ _ hg
    simp only [resolvedBases, baseDiagnostics, List.filter_cons, hg, Option.isSome_some,
      Option.isNone_some, List.filter_nil, List.map_nil, List.map_cons, if_true,
      Bool.false_eq_true, if_false, JSBHeaderVisitor.onClass, JSBClass.AddBaseClass, hb,
      List.append_nil]

/-- The whole base-class loop, as a single write to the class and the log. -/
theorem foldl_visitBaseClass (name : String) (jclass : JSBClass) (bases : List BaseClass)
    (v : JSBHeaderVisitor) :
    bases.foldl (JSBHeaderVisitor.visitBaseClass name jclass) v =
      { header_ := v.header_
        module_ := v.module_
        bindings_ := v.bindings_.updateClass jclass.className (fun c =>
          { c with baseClasses := c.baseClasses ++ resolvedBases v.bindings_ bases })
        log := v.log ++ baseDiagnostics name v.bindings_ bases } := by
  induction bases generalizing v with
  | nil =>
    simp only [List.foldl_nil, resolvedBases, baseDiagnostics, List.filter_nil, List.map_nil,
      List.append_nil]
    rw [updateClass_self _ _ _ (by intro c; simp)]
  | cons bc rest ih =>
    rw [List.foldl_cons, visitBaseClass_eq, ih]
    have hf : ∀ c : JSBClass,
        ({ c with baseClasses := c.baseClasses ++ resolvedBases v.bindings_ [bc] } :
          JSBClass).className = c.className := fun _ => rfl
    simp only [resolvedBases_updateClass _ _ _ hf, baseDiagnostics_updateClass _ _ _ _ hf,
      updateClass_comp _ _ _ _ hf]
    have hr : resolvedBases v.bindings_ (bc :: rest) =
        resolvedBases v.bindings_ [bc] ++ resolvedBases v.bindings_ rest := by
      simp only [resolvedBases, ← List.map_append, ← List.filter_append, List.singleton_append]
    have hd : baseDiagnostics name v.bindings_ (bc :: rest) =
        baseDiagnostics name v.bindings_ [bc] ++ baseDiagnostics name v.bindings_ rest := by
      simp only [baseDiagnostics, ← List.map_append, ← List.filter_append,
        List.singleton_append]
    simp only [hr, hd, List.append_assoc]

/-- One round of the member loop, as a single write to the class. -/
theorem visitMember_eq (jclass : JSBClass) (v : JSBHeaderVisitor) (symbol : Symbol) :
    JSBHeaderVisitor.visitMember jclass v symbol =
      { header_ := v.header_
        module_ := v.module_
        bindings_ := v.bindings_.updateClass jclass.className (fun c =>
          { c with
            functions := c.functions ++ acceptedFunctions v.bindings_ jclass [symbol]
            isAbstract := c.isAbstract || isPureVirtualMember symbol })
        log := v.log } := by
  have hf : ∀ c : JSBClass, (c.setAbstract true).className = c.className := fun _ => rfl
  unfold JSBHeaderVisitor.visitMember
  simp only [acceptedFunctions, List.filterMap_cons, List.filterMap_nil, memberContribution,
    isPureVirtualMember]
  cases hm : JSBHeaderVisitor.memberFunction symbol with
  | none =>
    simp only [List.append_nil, Bool.or_false]
    rw [updateClass_self _ _ _ (by intro c; rfl)]
  | some function =>
    cases hpub : symbol.isPublic with
    | false =>
      cases hpv : function.isPureVirtual with
      | false =>
        simp only [hpv, hpub, Bool.false_eq_true, if_false, Bool.not_false, if_true,
          List.append_nil, Bool.or_false]
        rw [updateClass_self _ _ _ (by intro c; rfl)]
      | true =>
        simp only [hpv, hpub, if_true, Bool.not_false, Bool.false_eq_true, if_false,
          List.append_nil, Bool.or_true, JSBHeaderVisitor.onClass, JSBClass.setAbstract]
    | true =>
      cases hpv : function.isPureVirtual with
      | false =>
        simp only [hpv, hpub, Bool.false_eq_true, if_false, Bool.not_true, if_true,
          Bool.or_false]
        cases hp : processFunction v.bindings_ jclass function with
        | none =>
          simp only [List.append_nil]
          rw [updateClass_self _ _ _ (by intro c; rfl)]
        | some jfunction =>
          simp only [JSBHeaderVisitor.onClass, JSBClass.AddFunction]
      | true =>
        simp only [hpv, hpub, if_true, Bool.not_true, Bool.false_eq_true, if_false,
          Bool.or_true, JSBHeaderVisitor.onClass, processFunction_updateClass _ _ _ hf]
        cases hp : processFunction v.bindings_ jclass function with
        | none => simp only [List.append_nil, JSBClass.setAbstract]
        | some jfunction =>
          simp only []
          rw [updateClass_comp _ _ _ _ hf]
          rfl

/-- The whole member loop, as a single write to the class. -/
theorem foldl_visitMember (jclass : JSBClass) (members : List Symbol) (v : JSBHeaderVisitor) :
    members.foldl (JSBHeaderVisitor.visitMember jclass) v =
      { header_ := v.header_
        module_ := v.module_
        bindings_ := v.bindings_.updateClass jclass.className (fun c =>
          { c with
            functions := c.functions ++ acceptedFunctions v.bindings_ jclass members
            isAbstract := c.isAbstract || members.any isPureVirtualMember })
        log := v.log } := by
  induction members generalizing v with
  | nil =>
    simp only [List.foldl_nil, acceptedFunctions, List.filterMap_nil, List.append_nil,
      List.any_nil, Bool.or_false]
    rw [updateClass_self _ _ _ (by intro c; rfl)]
  | cons symbol rest ih =>
    rw [List.foldl_cons, visitMember_eq, ih]
    have hf : ∀ c : JSBClass,
        ({ c with
            functions := c.functions ++ acceptedFunctions v.bindings_ jclass [symbol]
            isAbstract := c.isAbstract || isPureVirtualMember symbol } :
          JSBClass).className = c.className := fun _ => rfl
    simp only [acceptedFunctions_updateClass _ _ _ hf, updateClass_comp _ _ _ _ hf]
    have ha : acceptedFunctions v.bindings_ jclass (symbol :: rest) =
        acceptedFunctions v.bindings_ jclass [symbol] ++
          acceptedFunctions v.bindings_ jclass rest := by
      simp only [acceptedFunctions, ← List.filterMap_append, List.singleton_append]
    simp only [ha, List.append_assoc, List.any_cons, Bool.or_assoc]

/-- The state after visiting a registered class: one write to the class, one
class added to the module, and the base warnings appended to the log. -/
theorem visitClass_registered (v : JSBHeaderVisitor) (klass : Class) (jclass : JSBClass)
    (h : v.bindings_.GetClass (getNameString klass.name) = some jclass) :
    v.visitClass klass =
      (false,
        { header_ := v.header_
          module_ := v.module_.AddClass jclass.className
          bindings_ := v.bindings_.updateClass jclass.className (fun c =>
            { className := c.className
              header := some v.header_
              module_ := some v.module_.name
              baseClasses := c.baseClasses ++ resolvedBases v.bindings_ klass.baseClasses
              functions := c.functions ++ acceptedFunctions v.bindings_ jclass klass.members
              isAbstract := c.isAbstract || klass.members.any isPureVirtualMember })
          log := v.log ++
            baseDiagnostics (getNameString klass.name) v.bindings_ klass.baseClasses }) := by
  unfold JSBHeaderVisitor.visitClass
  simp only [h, foldl_visitMember, foldl_visitBaseClass, JSBHeaderVisitor.onClass,
    JSBClass.SetHeader, JSBClass.SetModule]
  simp (disch := intro _; rfl) only [updateClass_comp, resolvedBases_updateClass,
    baseDiagnostics_updateClass, acceptedFunctions_updateClass]

/-- The visitor's casts find exactly the function the member's shape shows. -/
theorem memberFunction_eq (symbol : Symbol) :
    JSBHeaderVisitor.memberFunction symbol = functionOfMember symbol := by
  cases symbol with
  | declaration visibility decl =>
    cases decl with
    | mk name type =>
      cases type with
      | mk t isSigned isUnsigned => cases t <;> rfl
  | _ => rfl

/-- What a member contributes, read off the shape of the member. -/
theorem memberContribution_eq (b : JSBindings) (jclass : JSBClass) :
    memberContribution b jclass = fun symbol =>
      (publicFunctionOfMember symbol).bind (processFunction b jclass) := by
  funext symbol
  unfold memberContribution
  rw [memberFunction_eq]
  cases symbol with
  | declaration visibility decl =>
    cases decl with
    | mk name type =>
      cases type with
      | mk t isSigned isUnsigned => cases t <;> cases visibility <;> rfl
  | function visibility f => cases visibility <;> rfl
  | _ => rfl

/-- The class entry after visiting a registered class. -/
theorem visitClass_GetClass (v : JSBHeaderVisitor) (klass : Class) (jclass : JSBClass)
    (h : v.bindings_.GetClass (getNameString klass.name) = some jclass) :
    (v.visitClass klass).2.bindings_.GetClass (getNameString klass.name) =
      some
        { className := jclass.className
          header := some v.header_
          module_ := some v.module_.name
          baseClasses := jclass.baseClasses ++ resolvedBases v.bindings_ klass.baseClasses
          functions := jclass.functions ++ acceptedFunctions v.bindings_ jclass klass.members
          isAbstract := jclass.isAbstract || klass.members.any isPureVirtualMember } := by
  have hn := GetClass_className _ _ _ h
  rw [visitClass_registered v klass jclass h]
  simp (disch := intro _; rfl) only [GetClass_updateClass, hn, if_true, h, Option.map_some']

/-- C9: visiting a registered class appends to its function list exactly the
`processFunction` results of the members that are functions (inline definitions
or declarations of function type), public and accepted, in member declaration
order; every other member (not a function, not public, or rejected)
contributes nothing. Starting from an empty function list, the list is exactly
those results. -/
theorem visitClass_functions (v : JSBHeaderVisitor) (klass : Class) (jclass : JSBClass)
    (h : v.bindings_.GetClass (getNameString klass.name) = some jclass) :
    ((v.visitClass klass).2.bindings_.GetClass (getNameString klass.name)).map
        (fun c => c.functions) =
      some (jclass.functions ++ klass.members.filterMap (fun symbol =>
        (publicFunctionOfMember symbol).bind (processFunction v.bindings_ jclass))) ∧
    (jclass.functions = [] →
      ((v.visitClass klass).2.bindings_.GetClass (getNameString klass.name)).map
          (fun c => c.functions) =
        some (klass.members.filterMap (fun symbol =>
          (publicFunctionOfMember symbol).bind (processFunction v.bindings_ jclass)))) := by
  have key : ((v.visitClass klass).2.bindings_.GetClass (getNameString klass.name)).map
        (fun c => c.functions) =
      some (jclass.functions ++ klass.members.filterMap (fun symbol =>
        (publicFunctionOfMember symbol).bind (processFunction v.bindings_ jclass))) := by
    rw [visitClass_GetClass v klass jclass h, ← memberContribution_eq]
    rfl
  refine ⟨key, ?_⟩
  intro hempty
  rw [key, hempty, List.nil_append]

/-- C9 at the registered class `Vector3`. With public `float x_`, public
`Vector3(float x, float y, float z)` and private `void Internal()`: exactly one
Function, the constructor with parameters `[(Float,"x"),(Float,"y"),(Float,"z")]`.
With the declarations public `void Normalize();`, protected `void Normalize();`
and public `float x_`: exactly one Function, the public `Normalize`. -/
theorem visitClass_functions_witness :
    sampleVisitor.bindings_.GetClass (getNameString vector3Class.name) =
      some (registeredClass "Vector3") ∧
    ((sampleVisitor.visitClass vector3Class).2.bindings_.GetClass
        (getNameString vector3Class.name)).map (fun c => c.functions) =
      some (vector3Class.members.filterMap (fun symbol =>
        (publicFunctionOfMember symbol).bind
          (processFunction sampleVisitor.bindings_ (registeredClass "Vector3")))) ∧
    ((sampleVisitor.visitClass vector3Class).2.bindings_.GetClass "Vector3").map
        (fun c => c.functions) = some [vector3ConstructorModel] ∧
    vector3ConstructorModel.isConstructor = true ∧
    vector3ConstructorModel.parameters =
      [floatParameter "x", floatParameter "y", floatParameter "z"] ∧
    ((sampleVisitor.visitClass declaredClass).2.bindings_.GetClass "Vector3").map
        (fun c => c.functions) = some [normalizeModel] :=
  ⟨rfl,
    (visitClass_functions sampleVisitor vector3Class (registeredClass "Vector3") rfl).2 rfl,
    by decide, rfl, rfl, by decide⟩

/-- C10: visiting a registered class appends to its base list exactly the
declared bases whose names resolve in the class registry, in declaration order,
logs exactly one diagnostic per declared base that does not resolve, and adds
the class to the module's class list. -/
theorem visitClass_bases (v : JSBHeaderVisitor) (klass : Class) (jclass : JSBClass)
    (h : v.bindings_.GetClass (getNameString klass.name) = some jclass) :
    ((v.visitClass klass).2.bindings_.GetClass (getNameString klass.name)).map
        (fun c => c.baseClasses) =
      some (jclass.baseClasses ++
        (klass.baseClasses.filter
          (fun bc => (v.bindings_.GetClass (getNameString bc.name)).isSome)).map
          (fun bc => getNameString bc.name)) ∧
    (v.visitClass klass).2.log =
      v.log ++
        (klass.baseClasses.filter
          (fun bc => (v.bindings_.GetClass (getNameString bc.name)).isNone)).map
          (fun bc => "Warning: " ++ getNameString klass.name ++ " baseclass " ++
            getNameString bc.name ++ " not in bindings") ∧
    (v.visitClass klass).2.log.length =
      v.log.length +
        klass.baseClasses.countP
          (fun bc => (v.bindings_.GetClass (getNameString bc.name)).isNone) ∧
    (v.visitClass klass).2.module_.classes = v.module_.classes ++ [getNameString klass.name] ∧
    getNameString klass.name ∈ (v.visitClass klass).2.module_.classes := by
  have hn := GetClass_className _ _ _ h
  have hlog : (v.visitClass klass).2.log =
      v.log ++ baseDiagnostics (getNameString klass.name) v.bindings_ klass.baseClasses := by
    rw [visitClass_registered v klass jclass h]
  have hmod : (v.visitClass klass).2.module_.classes =
      v.module_.classes ++ [getNameString klass.name] := by
    rw [visitClass_registered v klass jclass h, hn]
    rfl
  refine ⟨?_, hlog, ?_, hmod, ?_⟩
  · rw [visitClass_GetClass v klass jclass h]
    rfl
  · rw [hlog, List.length_append, baseDiagnostics, List.length_map, List.countP_eq_length_filter]
  · rw [hmod]
    simp

/-- C10 at a registered class with bases `[Node, Foo]` where `Foo` is not
registered: its bases are `[Node]`, exactly one diagnostic is logged, and the
class is in the module. -/
theorem visitClass_bases_witness :
    sampleVisitor.bindings_.GetClass (getNameString derivedClass.name) =
      some (registeredClass "Vector3") ∧
    getNameString derivedClass.name ∈ (sampleVisitor.visitClass derivedClass).2.module_.classes ∧
    ((sampleVisitor.visitClass derivedClass).2.bindings_.GetClass "Vector3").map
        (fun c => c.baseClasses) = some ["Node"] ∧
    (sampleVisitor.visitClass derivedClass).2.log =
      ["Warning: Vector3 baseclass Foo not in bindings"] ∧
    (sampleVisitor.visitClass derivedClass).2.module_.classes = ["Vector3"] :=
  ⟨rfl,
    (visitClass_bases sampleVisitor derivedClass (registeredClass "Vector3") rfl).2.2.2.2,
    by decide, by decide, by decide⟩

/-- C11: a class symbol whose resolved name is absent from the class registry
is not descended into and leaves the whole state as it was: module (class list
and constants), registry (every class's bases, functions, abstract flag and
attachment) and log, whatever bases and members the symbol declares. -/
theorem visitClass_unregistered (v : JSBHeaderVisitor) (klass : Class)
    (h : v.bindings_.GetClass (getNameString klass.name) = none) :
    v.visitClass klass = (false, v) ∧
    (v.visitClass klass).1 = false ∧
    (v.visitClass klass).2.module_ = v.module_ ∧
    (v.visitClass klass).2.bindings_ = v.bindings_ ∧
    (v.visitClass klass).2.log = v.log := by
  have key : v.visitClass klass = (false, v) := by
    unfold JSBHeaderVisitor.visitClass
    simp only [h]
  rw [key]
  exact ⟨rfl, rfl, rfl, rfl, rfl⟩

/-- C11 at the unregistered class `Quaternion`, which declares a registered base
and a constructor: nothing changes. -/
theorem visitClass_unregistered_witness :
    sampleVisitor.bindings_.GetClass (getNameString quaternionClass.name) = none ∧
    sampleVisitor.visitClass quaternionClass = (false, sampleVisitor) :=
  ⟨rfl, (visitClass_unregistered sampleVisitor quaternionClass rfl).1⟩

theorem isPureVirtualMember_iff (symbol : Symbol) :
    isPureVirtualMember symbol = true ↔
      ∃ function, JSBHeaderVisitor.memberFunction symbol = some function ∧
        function.isPureVirtual = true := by
  unfold isPureVirtualMember
  cases JSBHeaderVisitor.memberFunction symbol <;> simp

/-- C12: after visiting a registered class its abstract flag is set exactly
when it was set before or some function member of the class symbol (an inline
definition or a declaration of function type) is pure-virtual, be that member
public or not, accepted or not; the visit never clears the flag. -/
theorem visitClass_abstract (v : JSBHeaderVisitor) (klass : Class) (jclass : JSBClass)
    (h : v.bindings_.GetClass (getNameString klass.name) = some jclass) :
    ∃ jclass', (v.visitClass klass).2.bindings_.GetClass (getNameString klass.name) =
        some jclass' ∧
      (jclass'.isAbstract = true ↔
        (jclass.isAbstract = true ∨
          ∃ symbol ∈ klass.members, ∃ function,
            functionOfMember symbol = some function ∧ function.isPureVirtual = true)) ∧
      (jclass.isAbstract = true → jclass'.isAbstract = true) := by
  refine ⟨_, visitClass_GetClass v klass jclass h, ?_, ?_⟩
  · simp only [Bool.or_eq_true, List.any_eq_true, isPureVirtualMember_iff, memberFunction_eq]
  · intro ha
    simp [ha]

/-- C12 at three classes registered as not abstract: one whose pure-virtual
member is a private declaration, one whose pure-virtual member is public but
rejected as variadic, one whose pure-virtual member is the public declaration
`virtual void Draw() = 0;`. All end abstract; only the last gains a function. -/
theorem visitClass_abstract_witness :
    (∃ jclass', (sampleVisitor.visitClass privateAbstractClass).2.bindings_.GetClass
          (getNameString privateAbstractClass.name) = some jclass' ∧
      (jclass'.isAbstract = true ↔
        ((registeredClass "Node").isAbstract = true ∨
          ∃ symbol ∈ privateAbstractClass.members, ∃ function,
            functionOfMember symbol = some function ∧ function.isPureVirtual = true)) ∧
      ((registeredClass "Node").isAbstract = true → jclass'.isAbstract = true)) ∧
    (sampleVisitor.visitClass privateAbstractClass).2.bindings_.GetClass "Node" =
      some { registeredClass "Node" with
        header := some "Vector3.h", module_ := some "Math", isAbstract := true } ∧
    (sampleVisitor.visitClass rejectedAbstractClass).2.bindings_.GetClass "Node" =
      some { registeredClass "Node" with
        header := some "Vector3.h", module_ := some "Math", isAbstract := true } ∧
    processFunction sampleBindings (registeredClass "Node") updateFunction = none ∧
    (sampleVisitor.visitClass publicAbstractClass).2.bindings_.GetClass "Node" =
      some { registeredClass "Node" with
        header := some "Vector3.h", module_ := some "Math", functions := [drawModel],
        isAbstract := true } :=
  ⟨visitClass_abstract sampleVisitor privateAbstractClass (registeredClass "Node") rfl,
    by decide, by decide, rfl, by decide⟩

theorem mem_RegisterConstant (m : JSBModule) (constant c : String) :
    c ∈ (m.RegisterConstant constant).constants ↔ c ∈ m.constants ∨ c = constant := by
  unfold JSBModule.RegisterConstant
  by_cases hc : constant ∈ m.constants
  · simp only [hc, if_true]
    constructor
    · exact Or.inl
    · rintro (h | h)
      · exact h
      · exact h ▸ hc
  · simp [hc]

theorem RegisterConstant_classes (m : JSBModule) (constant : String) :
    (m.RegisterConstant constant).classes = m.classes := by
  unfold JSBModule.RegisterConstant
  split <;> rfl

/-- C13: visiting a free declaration always returns true. When the declared
type is not a pointer, not a reference, not an enum, and is an integer or a
floating-point type, the declaration's name is registered as a module constant
and nothing else changes; in every other case the state, and so the module's
constant set, is unchanged. -/
theorem visitDeclaration_constant (v : JSBHeaderVisitor) (decl : Declaration) :
    (v.visitDeclaration decl).1 = true ∧
    ((decl.type.type.isPointerType = false ∧ decl.type.type.isReferenceType = false ∧
        decl.type.type.isEnumType = false ∧
        (decl.type.type.isIntegerType = true ∨ decl.type.type.isFloatType = true)) →
      (v.visitDeclaration decl).2 =
          { v with module_ := v.module_.RegisterConstant (getNameString decl.name) } ∧
        getNameString decl.name ∈ (v.visitDeclaration decl).2.module_.constants ∧
        (∀ c, c ∈ (v.visitDeclaration decl).2.module_.constants ↔
          c ∈ v.module_.constants ∨ c = getNameString decl.name)) ∧
    (¬ (decl.type.type.isPointerType = false ∧ decl.type.type.isReferenceType = false ∧
        decl.type.type.isEnumType = false ∧
        (decl.type.type.isIntegerType = true ∨ decl.type.type.isFloatType = true)) →
      (v.visitDeclaration decl).2 = v) := by
  unfold JSBHeaderVisitor.visitDeclaration
  cases ht : decl.type.type <;>
    simp [CppType.isPointerType, CppType.isReferenceType, CppType.isEnumType,
      CppType.isIntegerType, CppType.isFloatType, mem_RegisterConstant]

/-- C13 at `const int MAX_COUNT = 10;`, which registers `MAX_COUNT`, and at
`MyEnum DEFAULT_MODE;`, which registers nothing. -/
theorem visitDeclaration_constant_witness :
    (sampleVisitor.visitDeclaration maxCountDeclaration).1 = true ∧
    (sampleVisitor.visitDeclaration maxCountDeclaration).2.module_.constants = ["MAX_COUNT"] ∧
    getNameString maxCountDeclaration.name ∈
      (sampleVisitor.visitDeclaration maxCountDeclaration).2.module_.constants ∧
    (sampleVisitor.visitDeclaration defaultModeDeclaration).2 = sampleVisitor ∧
    (sampleVisitor.visitDeclaration enumModeDeclaration).2 = sampleVisitor :=
  ⟨(visitDeclaration_constant sampleVisitor maxCountDeclaration).1,
    by decide,
    ((visitDeclaration_constant sampleVisitor maxCountDeclaration).2.1
      ⟨rfl, rfl, rfl, Or.inl rfl⟩).2.1,
    (visitDeclaration_constant sampleVisitor defaultModeDeclaration).2.2 (by decide),
    (visitDeclaration_constant sampleVisitor enumModeDeclaration).2.2 (by decide)⟩

/-! ## The type mapping, category by category -/

/-- An enum found under a name carries that name. -/
theorem GetEnum_name (b : JSBindings) (name : String) (e : JSBEnum)
    (h : b.GetEnum name = some e) : e.name = name := by
  unfold JSBindings.GetEnum at h
  have he := List.find?_some h
  simpa using he

/-- The mapping of a named type whose name is not reserved. -/
theorem processTypeConversion_named_eq (bindings : JSBindings) (name : String)
    (h1 : name ≠ "String") (h2 : name ≠ "StringHash") (h3 : name ≠ "JS_HEAP_PTR") :
    processTypeConversion bindings (.named name) =
      match bindings.GetClass name with
      | some _ => some (.classType name)
      | none =>
        match bindings.GetEnum name with
        | some _ => some (.enumType name)
        | none => none := by
  simp only [processTypeConversion, getNameString, beq_iff_eq, h1, h2, h3, if_false]
  cases hc : bindings.GetClass name with
  | some c => simp [GetClass_className _ _ _ hc]
  | none =>
    cases he : bindings.GetEnum name with
    | some e => simp [GetEnum_name _ _ _ he]
    | none => rfl

/-- C14: a named type resolves in this priority: `String`, `StringHash` and
`JS_HEAP_PTR` give String, StringHash and OpaqueHeapPointer whatever is
registered; any other name gives the ClassRef of the registered class when the
class registry has it (also when an enum of that name exists), else the EnumRef
of the registered enum when the enum registry has it, else Unsupported. -/
theorem processTypeConversion_named (bindings : JSBindings) :
    processTypeConversion bindings (.named "String") = some .string ∧
    processTypeConversion bindings (.named "StringHash") = some .stringHash ∧
    processTypeConversion bindings (.named "JS_HEAP_PTR") = some .heapPtr ∧
    (∀ name : String, name ≠ "String" → name ≠ "StringHash" → name ≠ "JS_HEAP_PTR" →
      ((bindings.GetClass name).isSome = true →
        processTypeConversion bindings (.named name) = some (.classType name)) ∧
      ((bindings.GetClass name).isSome = false → (bindings.GetEnum name).isSome = true →
        processTypeConversion bindings (.named name) = some (.enumType name)) ∧
      ((bindings.GetClass name).isSome = false → (bindings.GetEnum name).isSome = false →
        processTypeConversion bindings (.named name) = none)) := by
  refine ⟨by simp [processTypeConversion, getNameString],
    by simp [processTypeConversion, getNameString],
    by simp [processTypeConversion, getNameString], ?_⟩
  intro name h1 h2 h3
  rw [processTypeConversion_named_eq bindings name h1 h2 h3]
  cases hc : bindings.GetClass name <;> cases he : bindings.GetEnum name <;> simp

/-- C14 in a registry that also registers the reserved names: `String`,
`StringHash` and `JS_HEAP_PTR` stay reserved, `Shape` (class and enum) is a
ClassRef, `Color` (enum only) an EnumRef, `Mesh` (neither) Unsupported. -/
theorem processTypeConversion_named_witness :
    (crowdedBindings.GetClass "String").isSome = true ∧
    processTypeConversion crowdedBindings (.named "String") = some .string ∧
    (crowdedBindings.GetEnum "StringHash").isSome = true ∧
    processTypeConversion crowdedBindings (.named "StringHash") = some .stringHash ∧
    (crowdedBindings.GetClass "JS_HEAP_PTR").isSome = true ∧
    processTypeConversion crowdedBindings (.named "JS_HEAP_PTR") = some .heapPtr ∧
    (crowdedBindings.GetEnum "Shape").isSome = true ∧
    processTypeConversion crowdedBindings (.named "Shape") = some (.classType "Shape") ∧
    processTypeConversion crowdedBindings (.named "Color") = some (.enumType "Color") ∧
    processTypeConversion crowdedBindings (.named "Mesh") = none :=
  ⟨rfl, (processTypeConversion_named crowdedBindings).1,
    rfl, (processTypeConversion_named crowdedBindings).2.1,
    rfl, (processTypeConversion_named crowdedBindings).2.2.1,
    rfl,
    ((processTypeConversion_named crowdedBindings).2.2.2 "Shape"
      (by decide) (by decide) (by decide)).1 rfl,
    ((processTypeConversion_named crowdedBindings).2.2.2 "Color"
      (by decide) (by decide) (by decide)).2.1 rfl rfl,
    ((processTypeConversion_named crowdedBindings).2.2.2 "Mesh"
      (by decide) (by decide) (by decide)).2.2 rfl rfl⟩

/-- A slot whose unwrapped core type is the placeholder and which is not
flagged unsigned does not map. -/
theorem mapCoreType_undefined_signed (bindings : JSBindings) (fst : FullySpecifiedType)
    (hu : fst.isUnsigned = false) :
    mapCoreType bindings fst .undefined = none := by
  simp [mapCoreType, hu, processTypeConversion]

/-- C15: `processTypeConversion` returns Unsupported for every type that is
neither an integer, nor a floating-point type, nor a named type whose name is
reserved or registered, in particular for the placeholder, void, pointers,
references, arrays and function types, and Primitive Float for every
floating-point type; so a slot whose base type is the placeholder and which is
not flagged unsigned is Unsupported in `processFunctionType`. -/
theorem processTypeConversion_unsupported (bindings : JSBindings) :
    (∀ type : CppType, type.isIntegerType = false → type.isFloatType = false →
      (∀ name, type = .named name →
        name ≠ "String" ∧ name ≠ "StringHash" ∧ name ≠ "JS_HEAP_PTR" ∧
          bindings.GetClass name = none ∧ bindings.GetEnum name = none) →
      processTypeConversion bindings type = none) ∧
    processTypeConversion bindings .undefined = none ∧
    processTypeConversion bindings .void = none ∧
    (∀ elementType, processTypeConversion bindings (.pointer elementType) = none) ∧
    (∀ elementType, processTypeConversion bindings (.reference elementType) = none) ∧
    (∀ elementType, processTypeConversion bindings (.array elementType) = none) ∧
    (∀ f, processTypeConversion bindings (.function f) = none) ∧
    (∀ kind, processTypeConversion bindings (.float kind) =
      some (.primitive { kind := .Float, isUnsigned := false })) ∧
    (∀ fst : FullySpecifiedType, unwrappedType fst = .undefined → fst.isUnsigned = false →
      processFunctionType bindings fst = none) := by
  refine ⟨?_, rfl, rfl, fun _ => rfl, fun _ => rfl, fun _ => rfl, fun _ => rfl, fun _ => rfl, ?_⟩
  · intro type hi hf hn
    cases type with
    | integer kind => cases hi
    | float kind => cases hf
    | named name =>
      obtain ⟨h1, h2, h3, hc, he⟩ := hn name rfl
      rw [processTypeConversion_named_eq bindings name h1 h2 h3, hc, he]
    | _ => rfl
  · intro fst ht hu
    apply processFunctionType_of_unmapped
    rw [ht]
    exact mapCoreType_undefined_signed bindings fst hu

/-- C15 at a bare `signed` slot: Unsupported; and at the unregistered name
`Mesh`: Unsupported. -/
theorem processTypeConversion_unsupported_witness :
    unwrappedType bareSignedType = .undefined ∧ bareSignedType.isUnsigned = false ∧
    processFunctionType sampleBindings bareSignedType = none ∧
    processTypeConversion sampleBindings (.named "Mesh") = none :=
  ⟨rfl, rfl,
    (processTypeConversion_unsupported sampleBindings).2.2.2.2.2.2.2.2 bareSignedType rfl rfl,
    (processTypeConversion_unsupported sampleBindings).1 (.named "Mesh") rfl rfl
      (fun name hn => by
        cases hn
        exact ⟨by decide, by decide, by decide, rfl, rfl⟩)⟩

/-- C16: a slot flagged unsigned whose base type is the placeholder and which
has no pointer or reference wrapper maps to Primitive Int, unsigned, with
neither qualifier, the same for every registry. -/
theorem processFunctionType_bare_unsigned (bindings : JSBindings) (fst : FullySpecifiedType)
    (hu : fst.isUnsigned = true) (hp : fst.type.isPointerType = false)
    (hr : fst.type.isReferenceType = false)
    (ht : (unwrappedType fst).isUndefinedType = true) :
    processFunctionType bindings fst =
      some { type := .primitive { kind := .Int, isUnsigned := true }
             isPointer := false, isSharedPtr := false, isReference := false
             name := "", initializer := "" } := by
  have hq1 : (unwrapPointer fst.type).1 = false := by rw [unwrapPointer_fst, hp]
  have hq2 : (unwrapReference (unwrapPointer fst.type).2).1 = false := by
    cases hty : fst.type <;> rw [hty] at hp hr <;>
      first
        | rfl
        | (simp [CppType.isPointerType] at hp; done)
        | simp [CppType.isReferenceType] at hr
  rw [processFunctionType_of_mapped _ _ _ (mapCoreType_bare_unsigned bindings fst _ hu ht),
    hq1, hq2]
  rfl

/-- C16 at a bare `unsigned`. -/
theorem processFunctionType_bare_unsigned_witness :
    bareUnsignedType.isUnsigned = true ∧
    processFunctionType sampleBindings bareUnsignedType =
      some (JSBFunctionType.ofType (.primitive { kind := .Int, isUnsigned := true })) :=
  ⟨rfl, processFunctionType_bare_unsigned sampleBindings bareUnsignedType rfl rfl rfl rfl⟩

/-! ## Levels of indirection -/

theorem mapCoreType_pointer (bindings : JSBindings) (fst elementType : FullySpecifiedType) :
    mapCoreType bindings fst (.pointer elementType) = none := by
  cases hu : fst.isUnsigned <;>
    simp [mapCoreType, processTypeConversion, hu, CppType.isUndefinedType]

theorem mapCoreType_reference (bindings : JSBindings) (fst elementType : FullySpecifiedType) :
    mapCoreType bindings fst (.reference elementType) = none := by
  cases hu : fst.isUnsigned <;>
    simp [mapCoreType, processTypeConversion, hu, CppType.isUndefinedType]

theorem mapCoreType_named (bindings : JSBindings) (fst : FullySpecifiedType) (name : String) :
    mapCoreType bindings fst (.named name) = processTypeConversion bindings (.named name) := by
  cases hu : fst.isUnsigned <;> simp [mapCoreType, hu, CppType.isUndefinedType]

/-- C17, as stated, fails: with `Node` registered, the reference-to-pointer
slot `Node*&` is Unsupported; and with a class registered as `String`, the
pointer-to-reference slot maps to the String type, not to a ClassRef. -/
theorem processFunctionType_both_qualifiers_counterexample :
    (sampleBindings.GetClass "Node").isSome = true ∧
    processFunctionType sampleBindings nodePointerReferenceType = none ∧
    (crowdedBindings.GetClass "String").isSome = true ∧
    processFunctionType crowdedBindings stringReferencePointerType =
      some { type := .string, isPointer := true, isSharedPtr := false, isReference := true,
             name := "", initializer := "" } := by
  decide

/-- C17, amended: the two qualifiers are recorded independently and both may be
set: for a registered class whose name is not reserved, the pointer-to-reference
slot maps to the ClassRef with `isPointer` and `isReference` both set; the
reference-to-pointer slot is Unsupported, the pointer being looked for before
the reference is unwrapped. -/
theorem processFunctionType_both_qualifiers (bindings : JSBindings) (name : String)
    (s1 u1 s2 u2 s3 u3 : Bool)
    (hreg : (bindings.GetClass name).isSome = true)
    (h1 : name ≠ "String") (h2 : name ≠ "StringHash") (h3 : name ≠ "JS_HEAP_PTR") :
    processFunctionType bindings
        (.mk (.pointer (.mk (.reference (.mk (.named name) s1 u1)) s2 u2)) s3 u3) =
      some { type := .classType name, isPointer := true, isSharedPtr := false,
             isReference := true, name := "", initializer := "" } ∧
    processFunctionType bindings
        (.mk (.reference (.mk (.pointer (.mk (.named name) s1 u1)) s2 u2)) s3 u3) = none := by
  constructor
  · have hm : mapCoreType bindings
        (.mk (.pointer (.mk (.reference (.mk (.named name) s1 u1)) s2 u2)) s3 u3)
        (unwrappedType
          (.mk (.pointer (.mk (.reference (.mk (.named name) s1 u1)) s2 u2)) s3 u3)) =
        some (.classType name) := by
      have hu : unwrappedType
          (.mk (.pointer (.mk (.reference (.mk (.named name) s1 u1)) s2 u2)) s3 u3) =
          .named name := rfl
      rw [hu, mapCoreType_named, processTypeConversion_named_eq bindings name h1 h2 h3]
      cases hc : bindings.GetClass name with
      | none => simp [hc] at hreg
      | some c => rfl
    rw [processFunctionType_of_mapped _ _ _ hm]
    rfl
  · apply processFunctionType_of_unmapped
    exact mapCoreType_pointer bindings _ _

/-- C17 amended, at the registered class `Node`. -/
theorem processFunctionType_both_qualifiers_witness :
    processFunctionType sampleBindings nodeReferencePointerType =
      some { type := .classType "Node", isPointer := true, isSharedPtr := false,
             isReference := true, name := "", initializer := "" } ∧
    processFunctionType sampleBindings nodePointerReferenceType = none :=
  processFunctionType_both_qualifiers sampleBindings "Node" false false false false false false
    rfl (by decide) (by decide) (by decide)

/-- C18: two argument slots with the same type that differ only in their names
are either both rejected or both accepted, and when accepted the two Parameters
have equal Type, `isPointer` and `isReference`, each with its own argument's
name, so distinct names give distinct name fields. -/
theorem processFunctionArgType_names (bindings : JSBindings) (name1 name2 : String)
    (type : FullySpecifiedType) (initializer : Option String) :
    ((processFunctionArgType bindings (.mk name1 type initializer)).isSome =
      (processFunctionArgType bindings (.mk name2 type initializer)).isSome) ∧
    (∀ p1 p2 : JSBFunctionType,
      processFunctionArgType bindings (.mk name1 type initializer) = some p1 →
      processFunctionArgType bindings (.mk name2 type initializer) = some p2 →
      p1.type = p2.type ∧ p1.isPointer = p2.isPointer ∧ p1.isReference = p2.isReference ∧
        p1.name = name1 ∧ p2.name = name2 ∧ (name1 ≠ name2 → p1.name ≠ p2.name)) := by
  simp only [processFunctionArgType, Argument.type, Argument.name, getNameString]
  cases hp : processFunctionType bindings type with
  | none => simp
  | some ft =>
    refine ⟨rfl, ?_⟩
    intro p1 p2 e1 e2
    simp only [Option.some.injEq] at e1 e2
    subst e1 e2
    exact ⟨rfl, rfl, rfl, rfl, rfl, fun hne => hne⟩

/-- C18 at the arguments `Node* parent` and `Node* child`: both accepted, same
Type and qualifiers, names `parent` and `child`; and at `int* a`, `int* b`:
both rejected. -/
theorem processFunctionArgType_names_witness :
    processFunctionArgType sampleBindings (.mk "parent" nodePointerType none) =
      some (nodePointerParameter "parent") ∧
    processFunctionArgType sampleBindings (.mk "child" nodePointerType none) =
      some (nodePointerParameter "child") ∧
    (nodePointerParameter "parent").name ≠ (nodePointerParameter "child").name ∧
    (processFunctionArgType sampleBindings (.mk "a" intPointerType none)).isSome =
      (processFunctionArgType sampleBindings (.mk "b" intPointerType none)).isSome :=
  ⟨rfl, rfl,
    ((processFunctionArgType_names sampleBindings "parent" "child" nodePointerType none).2
      (nodePointerParameter "parent") (nodePointerParameter "child") rfl rfl).2.2.2.2.2
      (by decide),
    (processFunctionArgType_names sampleBindings "a" "b" intPointerType none).1⟩

/-- C20: only one level of indirection of each kind is unwrapped: a slot of
type pointer-to-pointer or reference-to-reference is Unsupported, whatever the
core type, the specifier flags and the registry. -/
theorem processFunctionType_double_indirection (bindings : JSBindings)
    (core : FullySpecifiedType) (s1 u1 s2 u2 : Bool) :
    processFunctionType bindings (.mk (.pointer (.mk (.pointer core) s1 u1)) s2 u2) = none ∧
    processFunctionType bindings (.mk (.reference (.mk (.reference core) s1 u1)) s2 u2) =
      none := by
  constructor
  · apply processFunctionType_of_unmapped
    exact mapCoreType_pointer bindings _ _
  · apply processFunctionType_of_unmapped
    exact mapCoreType_reference bindings _ _

/-! ## No qualified scalar in the model -/

/-- A mapped slot with a qualifier set is not a Primitive. -/
theorem processFunctionType_qualified (bindings : JSBindings) (fst : FullySpecifiedType)
    (ft : JSBFunctionType) (h : processFunctionType bindings fst = some ft)
    (hq : ft.isPointer = true ∨ ft.isReference = true) (prim : JSBPrimitiveType) :
    ft.type ≠ .primitive prim := by
  obtain ⟨-, -, -, -, -, -, hnp⟩ := processFunctionType_some bindings fst ft h
  have hor : (ft.isPointer || ft.isReference) = true := by
    rcases hq with hq | hq <;> simp [hq]
  intro ht
  have hnone := hnp hor
  rw [ht] at hnone
  cases hnone

/-- A present return descriptor is a mapped slot. -/
theorem returnDescriptor_some (bindings : JSBindings) (function : Function)
    (rt : JSBFunctionType) (h : returnDescriptor bindings function = some (some rt)) :
    ∃ fst, processFunctionType bindings fst = some rt := by
  unfold returnDescriptor at h
  cases hr : function.returnType with
  | none => simp [hr] at h
  | some returnType =>
    cases hv : returnType.type.isVoidType with
    | true => simp [hr, hv] at h
    | false =>
      cases hp : processFunctionType bindings returnType with
      | none => simp [hr, hv, hp] at h
      | some ft =>
        simp only [hr, hv, hp, Bool.false_eq_true, if_false, Option.some.injEq] at h
        exact ⟨returnType, h ▸ hp⟩

/-- Every parameter of an accepted argument list was built from an argument. -/
theorem argumentParameters_mem (bindings : JSBindings) (args : List Symbol)
    (ps : List JSBFunctionType) (h : argumentParameters bindings args = some ps)
    (p : JSBFunctionType) (hp : p ∈ ps) :
    ∃ arg, argumentParameter bindings arg = some p := by
  induction args generalizing ps with
  | nil =>
    simp only [argumentParameters, Option.some.injEq] at h
    subst h
    cases hp
  | cons symbol rest ih =>
    unfold argumentParameters at h
    cases ha : symbol.asArgument with
    | none => simp [ha] at h
    | some arg =>
      cases hq : argumentParameter bindings arg with
      | none => simp [ha, hq] at h
      | some q =>
        cases hps : argumentParameters bindings rest with
        | none => simp [ha, hq, hps] at h
        | some qs =>
          simp only [ha, hq, hps, Option.some.injEq] at h
          subst h
          rcases List.mem_cons.mp hp with hpq | hpq
          · exact ⟨arg, hpq ▸ hq⟩
          · exact ih qs hps hpq

/-- No slot of an accepted function is a qualified Primitive. -/
theorem processFunction_no_qualified_primitive (bindings : JSBindings) (klass : JSBClass)
    (function : Function) (jf : JSBFunction)
    (h : processFunction bindings klass function = some jf) :
    (∀ rt, jf.returnType = some rt → (rt.isPointer = true ∨ rt.isReference = true) →
      ∀ prim, rt.type ≠ .primitive prim) ∧
    (∀ p ∈ jf.parameters, (p.isPointer = true ∨ p.isReference = true) →
      ∀ prim, p.type ≠ .primitive prim) := by
  obtain ⟨-, -, -, -, -, -, hr, hps⟩ := processFunction_some bindings klass function jf h
  constructor
  · intro rt hrt hq prim
    rw [hrt] at hr
    obtain ⟨fst, hfst⟩ := returnDescriptor_some bindings function rt hr
    exact processFunctionType_qualified bindings fst rt hfst hq prim
  · intro p hp hq prim
    obtain ⟨arg, harg⟩ := argumentParameters_mem bindings function.arguments jf.parameters hps p hp
    obtain ⟨ft, hft, ht, hptr, href, -, -⟩ := argumentParameter_some bindings arg p harg
    rw [ht]
    rw [hptr, href] at hq
    exact processFunctionType_qualified bindings arg.type ft hft hq prim

/-- Every function the member loop contributes is an accepted function. -/
theorem acceptedFunctions_mem (b : JSBindings) (jclass : JSBClass) (members : List Symbol)
    (jf : JSBFunction) (h : jf ∈ acceptedFunctions b jclass members) :
    ∃ function, processFunction b jclass function = some jf := by
  unfold acceptedFunctions at h
  obtain ⟨symbol, -, hs⟩ := List.mem_filterMap.mp h
  unfold memberContribution at hs
  cases hm : JSBHeaderVisitor.memberFunction symbol with
  | none => simp [hm] at hs
  | some function =>
    cases hpub : symbol.isPublic with
    | false => simp [hm, hpub] at hs
    | true =>
      simp only [hm, hpub, if_true] at hs
      exact ⟨function, hs⟩

/-- C19: after visiting a registered class that starts with an empty function
list, every Function of the class satisfies, for its return descriptor (if
present) and for each parameter, that `isPointer` or `isReference` set implies
a Type that is not a Primitive: no pointer-to-scalar or reference-to-scalar slot
reaches the model. -/
theorem visitClass_no_qualified_primitive (v : JSBHeaderVisitor) (klass : Class)
    (jclass : JSBClass)
    (h : v.bindings_.GetClass (getNameString klass.name) = some jclass)
    (hempty : jclass.functions = []) :
    ∃ jclass', (v.visitClass klass).2.bindings_.GetClass (getNameString klass.name) =
        some jclass' ∧
      ∀ jf ∈ jclass'.functions,
        (∀ rt, jf.returnType = some rt → (rt.isPointer = true ∨ rt.isReference = true) →
          ∀ prim, rt.type ≠ .primitive prim) ∧
        (∀ p ∈ jf.parameters, (p.isPointer = true ∨ p.isReference = true) →
          ∀ prim, p.type ≠ .primitive prim) := by
  refine ⟨_, visitClass_GetClass v klass jclass h, ?_⟩
  intro jf hjf
  simp only [hempty, List.nil_append] at hjf
  obtain ⟨function, hf⟩ := acceptedFunctions_mem v.bindings_ jclass klass.members jf hjf
  exact processFunction_no_qualified_primitive v.bindings_ jclass function jf hf

/-- C19 at the registered class `Node` with `Node* GetParent()` and
`int* GetRaw()`: only `GetParent` reaches the model, its return descriptor a
pointer to a ClassRef. -/
theorem visitClass_no_qualified_primitive_witness :
    (∃ jclass', (sampleVisitor.visitClass nodeClass).2.bindings_.GetClass
          (getNameString nodeClass.name) = some jclass' ∧
      ∀ jf ∈ jclass'.functions,
        (∀ rt, jf.returnType = some rt → (rt.isPointer = true ∨ rt.isReference = true) →
          ∀ prim, rt.type ≠ .primitive prim) ∧
        (∀ p ∈ jf.parameters, (p.isPointer = true ∨ p.isReference = true) →
          ∀ prim, p.type ≠ .primitive prim)) ∧
    ((sampleVisitor.visitClass nodeClass).2.bindings_.GetClass "Node").map
        (fun c => c.functions) = some [getParentModel] :=
  ⟨visitClass_no_qualified_primitive sampleVisitor nodeClass (registeredClass "Node") rfl rfl,
    by decide⟩

end JSBind
